import Mathlib

/-!
Verification of the order-fulfillment core of the Restaurant System API
(Django REST Framework backend).

The development is a shallow embedding of the Python source:

* money (`DecimalField(max_digits=10, decimal_places=2)`) is modelled as an
  integer number of cents (`Int`); item quantities (`PositiveIntegerField`)
  are plain integers, so a stored `3` renders as `"3"` in messages exactly
  as in the source;
* the database is an explicit `DB` record of row lists; Django's
  `transaction.atomic` together with exception propagation is modelled by
  `Except String DB`: an error carries no new state, matching rollback;
* each Lean definition is translated from the named Python function
  (`src/orders/services.py`, `src/orders/models.py`, `src/coupons/models.py`,
  `src/cart/services.py`, `src/menu/models.py`).
-/

/-- `ROUND_HALF_EVEN` (banker's rounding) of the rational `n / d` for `d > 0`,
as performed by `Decimal.quantize(Decimal("0.01"))` in
`Coupon.calculate_discount` (src/coupons/models.py line 169) once amounts are
scaled to cents. -/
def roundHalfEven (n d : Int) : Int :=
  let q := n.ediv d
  let r := n.emod d
  if 2 * r < d then q
  else if d < 2 * r then q + 1
  else if q.emod 2 = 0 then q else q + 1

/-- `Coupon.DISCOUNT_TYPE_CHOICES` (src/coupons/models.py). -/
inductive DiscountType
  | percentage
  | fixed
deriving DecidableEq

/-- The `Coupon` model (src/coupons/models.py). Monetary fields are in cents;
`discountValue` stores hundredths (so `10.00` percent is `1000`).
`maximumDiscountAmount` and `maxUsageTotal` are nullable. Timestamps are
abstract integers. -/
structure Coupon where
  code : String
  discountType : DiscountType
  discountValue : Int
  minimumOrderAmount : Int
  maximumDiscountAmount : Option Int
  maxUsageTotal : Option Nat
  maxUsagePerUser : Nat
  currentUsageCount : Nat
  isUserSpecific : Bool
  allowedUsers : List Nat
  validFrom : Int
  validUntil : Int
  isActive : Bool
deriving DecidableEq

/-- `Coupon.calculate_discount` (src/coupons/models.py lines 160-181).
Returns `(discount_amount, final_amount)`. Note the Python guard
`if self.maximum_discount_amount and discount > self.maximum_discount_amount:`
tests *truthiness*: the cap is skipped both when it is `None` and when it is
`Decimal("0.00")`, hence the `m ≠ 0` conjunct. -/
def Coupon.calculate_discount (c : Coupon) (order_amount : Int) : Int × Int :=
  if order_amount < c.minimumOrderAmount then
    (0, order_amount)
  else
    let discount :=
      if c.discountType = DiscountType.percentage then
        let d := roundHalfEven (order_amount * c.discountValue) 10000
        match c.maximumDiscountAmount with
        | some m => if m ≠ 0 ∧ m < d then m else d
        | none => d
      else
        c.discountValue
    let discount := min discount order_amount
    (discount, order_amount - discount)

/-- The `Product` model (src/menu/models.py), restricted to the fields the
order pipeline reads. -/
structure Product where
  id : Nat
  name : String
  price : Int
  isAvailable : Bool
deriving DecidableEq

/-- The `ProductInventory` model (src/menu/models.py): one-to-one with a
product (keyed here by `productId`). -/
structure ProductInventory where
  productId : Nat
  quantity : Int
  lowStockThreshold : Int
  autoDisableOnZero : Bool
deriving DecidableEq

/-- `InventoryTransaction.TRANSACTION_TYPE_CHOICES` (src/menu/models.py). -/
inductive TransactionKind
  | order
  | cancellation
  | restock
  | adjustment
  | damaged
deriving DecidableEq

/-- The `InventoryTransaction` model (src/menu/models.py lines 121-179):
a signed-delta audit row carrying the resulting quantity. -/
structure InventoryTransaction where
  productId : Nat
  transactionKind : TransactionKind
  quantityChange : Int
  quantityAfter : Int
  orderId : Option Nat
deriving DecidableEq

/-- The `CartItem` model (src/cart/models.py); `price` is the snapshot taken
when the item was added, `userId` identifies the owning cart. -/
structure CartItem where
  userId : Nat
  productId : Nat
  quantity : Int
  price : Int
deriving DecidableEq

/-- The `Address` model (src/addresses/models.py), restricted to the fields
`create_order` reads (`get_object_or_404(Address, id=address_id, user=user)`). -/
structure Address where
  id : Nat
  userId : Nat
deriving DecidableEq

/-- The `Order` model (src/orders/models.py). `status` is kept as the stored
string, exactly as Django's `CharField(choices=STATUS_CHOICES)`. -/
structure Order where
  id : Nat
  userId : Nat
  subtotal : Int
  discountAmount : Int
  totalPrice : Int
  couponCode : String
  status : String
  addressId : Nat
deriving DecidableEq

/-- The `OrderItem` model (src/orders/models.py lines 88-99). Its product
reference is the plain integer column `product_id` plus the snapshot
`product_name`; the model defines **no** `product` relation. -/
structure OrderItem where
  id : Nat
  orderId : Nat
  productId : Nat
  productName : String
  price : Int
  quantity : Int
deriving DecidableEq

/-- The `OrderStatusHistory` model (src/orders/models.py). -/
structure OrderStatusHistory where
  orderId : Nat
  status : String
deriving DecidableEq

/-- The `CouponUsage` model (src/coupons/models.py): frozen snapshot of one
coupon application. -/
structure CouponUsage where
  couponCode : String
  userId : Nat
  orderId : Nat
  orderAmount : Int
  discountAmount : Int
  finalAmount : Int
deriving DecidableEq

/-- The database state threaded through the service layer. `now` models
`django.utils.timezone.now()`; `nextOrderId` / `nextOrderItemId` model the
autoincrement primary keys. -/
structure DB where
  now : Int
  products : List Product
  inventories : List ProductInventory
  invTransactions : List InventoryTransaction
  cartItems : List CartItem
  addresses : List Address
  coupons : List Coupon
  couponUsages : List CouponUsage
  orders : List Order
  orderItems : List OrderItem
  history : List OrderStatusHistory
  nextOrderId : Nat
  nextOrderItemId : Nat
deriving DecidableEq

def DB.findProduct (db : DB) (pid : Nat) : Option Product :=
  db.products.find? (fun p => p.id == pid)

def DB.findInventory (db : DB) (pid : Nat) : Option ProductInventory :=
  db.inventories.find? (fun i => i.productId == pid)

def DB.findCoupon (db : DB) (code : String) : Option Coupon :=
  db.coupons.find? (fun c => c.code == code)

def DB.findOrder (db : DB) (oid : Nat) : Option Order :=
  db.orders.find? (fun o => o.id == oid)

/-- `CartItem.objects.filter(cart__user=user)` (src/cart/services.py). -/
def DB.userCartItems (db : DB) (uid : Nat) : List CartItem :=
  db.cartItems.filter (fun ci => ci.userId == uid)

/-- `order.items.all()`. -/
def DB.orderItemsOf (db : DB) (oid : Nat) : List OrderItem :=
  db.orderItems.filter (fun it => it.orderId == oid)

/-- `Coupon.is_valid` (src/coupons/models.py lines 138-145). -/
def Coupon.is_valid (c : Coupon) (now : Int) : Bool :=
  c.isActive && decide (c.validFrom ≤ now) && decide (now ≤ c.validUntil) &&
    (match c.maxUsageTotal with
     | none => true
     | some m => decide (c.currentUsageCount < m))

/-- `Coupon.can_user_use` (src/coupons/models.py lines 147-158): returns
`(can_use, message)`. The per-user usage count queries `CouponUsage`. -/
def Coupon.can_user_use (c : Coupon) (db : DB) (uid : Nat) : Bool × String :=
  if !(c.is_valid db.now) then
    (false, "Coupon is not valid")
  else if c.isUserSpecific && !(c.allowedUsers.contains uid) then
    (false, "This coupon is not available for your account")
  else
    let user_usage_count :=
      (db.couponUsages.filter (fun u => u.couponCode == c.code && u.userId == uid)).length
    if c.maxUsagePerUser ≤ user_usage_count then
      (false, "You have already used this coupon " ++ toString c.maxUsagePerUser ++ " time(s)")
    else
      (true, "Coupon is valid")

/-- `Coupon.increment_usage` (src/coupons/models.py lines 183-186) as its
effect on the stored rows: `current_usage_count += 1` then
`save(update_fields=["current_usage_count"])`. -/
def Coupon.increment_usage (db : DB) (code : String) : DB :=
  { db with coupons := db.coupons.map (fun c =>
      if c.code == code then { c with currentUsageCount := c.currentUsageCount + 1 } else c) }

/-- The availability entry the loop body of
`CartService.validate_cart_for_checkout` (src/cart/services.py lines 199-201)
contributes for one cart line: `item.product.name` when
`not item.product.is_available`. -/
def unavailableNameOf (db : DB) (item : CartItem) : Option String :=
  match db.findProduct item.productId with
  | none => none
  | some p => if p.isAvailable then none else some p.name

/-- The stock-issue entry the loop body of
`CartService.validate_cart_for_checkout` (src/cart/services.py lines 203-208)
contributes for one cart line: products without an inventory record are
skipped (`hasattr(item.product, 'inventory')` is false), otherwise a shortfall
yields `f"{name} (only {quantity} available)"`. -/
def stockIssueOf (db : DB) (item : CartItem) : Option String :=
  match db.findProduct item.productId with
  | none => none
  | some p =>
    match db.findInventory item.productId with
    | none => none
    | some inv =>
      if inv.quantity < item.quantity then
        some (p.name ++ " (only " ++ toString inv.quantity ++ " available)")
      else none

/-- `CartService.validate_cart_for_checkout` (src/cart/services.py lines
175-221). Raises on an empty cart, then on unavailable products, then on
stock shortfalls; on success returns the cart lines. -/
def CartService.validate_cart_for_checkout (db : DB) (uid : Nat) :
    Except String (List CartItem) :=
  let cart_items := db.userCartItems uid
  if cart_items.isEmpty then
    .error "Cart is empty"
  else
    let unavailable_products := cart_items.filterMap (unavailableNameOf db)
    let stock_issues := cart_items.filterMap (stockIssueOf db)
    if !unavailable_products.isEmpty then
      .error ("The following products are no longer available: " ++
        String.intercalate ", " unavailable_products)
    else if !stock_issues.isEmpty then
      .error ("Insufficient stock: " ++ String.intercalate ", " stock_issues)
    else
      .ok cart_items

/-- `CartService.clear_cart` (src/cart/services.py lines 148-155). -/
def CartService.clear_cart (db : DB) (uid : Nat) : DB :=
  { db with cartItems := db.cartItems.filter (fun ci => !(ci.userId == uid)) }

/-- `sum(item.price * item.quantity for item in cart_items)`
(src/orders/services.py line 42). -/
def cartSubtotal (items : List CartItem) : Int :=
  (items.map (fun it => it.price * it.quantity)).sum

/-- `sum(item.price * item.quantity for item in self.order.items.all())`
(src/orders/models.py line 105). -/
def DB.orderSubtotalOf (db : DB) (oid : Nat) : Int :=
  ((db.orderItemsOf oid).map (fun it => it.price * it.quantity)).sum

/-- `Order.objects.create(...)`: `Order.save` with `self.pk is None`
(src/orders/models.py lines 70-82), which inserts the row and — because
`is_create` — appends one `OrderStatusHistory` row carrying the row's status. -/
def orderCreate (db : DB) (o : Order) : DB :=
  { db with
      orders := db.orders ++ [o],
      history := db.history ++ [{ orderId := o.id, status := o.status }],
      nextOrderId := db.nextOrderId + 1 }

/-- `order.save(update_fields=["status"])` (src/orders/models.py lines 70-82):
the old status is re-read from the database, the new status is persisted, and
a history row is appended iff the status actually changed. -/
def orderSaveStatus (db : DB) (oid : Nat) (newStatus : String) : DB :=
  let db1 := { db with orders := db.orders.map (fun o =>
      if o.id == oid then { o with status := newStatus } else o) }
  match db.findOrder oid with
  | some old =>
    if old.status ≠ newStatus then
      { db1 with history := db1.history ++ [{ orderId := oid, status := newStatus }] }
    else db1
  | none => db1

/-- `OrderItem.update_order_total` (src/orders/models.py lines 104-110): if
the recomputed item sum differs from the stored subtotal, store it and set
`total_price = subtotal - discount_amount` via
`save(update_fields=["subtotal", "total_price"])` (no history row: `status`
is not among the update fields). -/
def update_order_total (db : DB) (oid : Nat) : DB :=
  match db.findOrder oid with
  | none => db
  | some o =>
    let subtotal := db.orderSubtotalOf oid
    if o.subtotal ≠ subtotal then
      { db with orders := db.orders.map (fun x =>
          if x.id == oid then
            { x with subtotal := subtotal, totalPrice := subtotal - x.discountAmount }
          else x) }
    else db

/-- `OrderItem.objects.create(...)`: `OrderItem.save` (src/orders/models.py
lines 112-114) inserts the row and then calls `update_order_total`. -/
def orderItemCreate (db : DB) (it : OrderItem) : DB :=
  let db1 := { db with
      orderItems := db.orderItems ++ [it],
      nextOrderItemId := db.nextOrderItemId + 1 }
  update_order_total db1 it.orderId

/-- `OrderItem.delete` (src/orders/models.py lines 116-124): removes the row,
then recomputes the parent order's subtotal/total exactly as
`update_order_total` does. -/
def orderItemDelete (db : DB) (itemId : Nat) : DB :=
  match db.orderItems.find? (fun it => it.id == itemId) with
  | none => db
  | some it =>
    let db1 := { db with orderItems := db.orderItems.filter (fun x => !(x.id == itemId)) }
    update_order_total db1 it.orderId

/-- `ProductInventory.save` (src/menu/models.py lines 111-118): persists the
record, then — if `auto_disable_on_zero` and the quantity is now zero — marks
the product unavailable when it currently is available. -/
def inventorySave (db : DB) (inv : ProductInventory) : DB :=
  let db1 := { db with inventories := db.inventories.map (fun i =>
      if i.productId == inv.productId then inv else i) }
  if inv.autoDisableOnZero && inv.quantity == 0 then
    { db1 with products := db1.products.map (fun p =>
        if p.id == inv.productId && p.isAvailable then { p with isAvailable := false } else p) }
  else db1

/-- The body of the `for item in cart_items:` loop inside the atomic block of
`OrderService.create_order` (src/orders/services.py lines 69-82): insert the
`OrderItem` snapshot, then — when the product has a tracked inventory record —
`inventory.quantity -= item.quantity; inventory.save(update_fields=['quantity'])`.
No `InventoryTransaction` row is created anywhere on this path. -/
def processLine (db : DB) (oid : Nat) (item : CartItem) : DB :=
  let product_name :=
    match db.findProduct item.productId with
    | some p => p.name
    | none => ""
  let db1 := orderItemCreate db
    { id := db.nextOrderItemId, orderId := oid, productId := item.productId,
      productName := product_name, price := item.price, quantity := item.quantity }
  match db1.findInventory item.productId with
  | some inv => inventorySave db1 { inv with quantity := inv.quantity - item.quantity }
  | none => db1

/-- `OrderService._apply_coupon` (src/orders/services.py lines 101-136):
look the code up, check `can_user_use`, check the minimum order amount, then
compute the discount. Returns `(coupon, discount_amount, final_amount)`. -/
def OrderService.apply_coupon (db : DB) (uid : Nat) (coupon_code : String)
    (subtotal : Int) : Except String (Coupon × Int × Int) :=
  match db.findCoupon coupon_code with
  | none => .error "Invalid coupon code"
  | some coupon =>
    let res := coupon.can_user_use db uid
    if !res.1 then
      .error res.2
    else if subtotal < coupon.minimumOrderAmount then
      .error ("Minimum order amount of $" ++ toString coupon.minimumOrderAmount ++
        " required for this coupon")
    else
      let dv := coupon.calculate_discount subtotal
      .ok (coupon, dv.1, dv.2)

/-- Python `str.upper()` on the code points the source feeds it (coupon codes
are ASCII); written over `String.data` so that the kernel can evaluate it. -/
def pyUpper (s : String) : String := String.mk (s.data.map Char.toUpper)

/-- Python `str.strip()`: drop leading and trailing whitespace; written over
`String.data` so that the kernel can evaluate it. -/
def pyStrip (s : String) : String :=
  String.mk (((s.data.dropWhile Char.isWhitespace).reverse.dropWhile Char.isWhitespace).reverse)

/-- The coupon-handling prelude of `OrderService.create_order`
(src/orders/services.py lines 45-54): `if coupon_code:` is Python truthiness
(both `None` and `""` skip the branch); a supplied code is normalized with
`.upper().strip()` before `_apply_coupon` runs. Yields
`(coupon, discount_amount, final_amount)` with the no-coupon defaults
`(None, 0.00, subtotal)`. -/
def couponResolve (db : DB) (uid : Nat) (coupon_code : Option String)
    (subtotal : Int) : Except String (Option Coupon × Int × Int) :=
  match coupon_code with
  | none => .ok (none, 0, subtotal)
  | some raw =>
    if raw == "" then .ok (none, 0, subtotal)
    else
      match OrderService.apply_coupon db uid (pyStrip (pyUpper raw)) subtotal with
      | .error e => .error e
      | .ok cdf => .ok (some cdf.1, cdf.2.1, cdf.2.2)

/-- The `transaction.atomic()` block of `OrderService.create_order`
(src/orders/services.py lines 56-97): insert the order (status defaults to
`"pending"`, so `Order.save` appends the initial history row), insert one
`OrderItem` per cart line with inventory decrements, record coupon usage and
`increment_usage` when a coupon was applied, then clear the cart. -/
def creationEffect (db : DB) (uid oid aid : Nat) (cart_items : List CartItem)
    (coupon : Option Coupon) (subtotal discount_amount final_amount : Int) : DB :=
  let order : Order :=
    { id := oid, userId := uid, subtotal := subtotal,
      discountAmount := discount_amount, totalPrice := final_amount,
      couponCode := (match coupon with | some c => c.code | none => ""),
      status := "pending", addressId := aid }
  let db1 := orderCreate db order
  let db2 := cart_items.foldl (fun acc item => processLine acc oid item) db1
  let db3 :=
    match coupon with
    | some c =>
      Coupon.increment_usage
        { db2 with couponUsages := db2.couponUsages ++
            [{ couponCode := c.code, userId := uid, orderId := oid,
               orderAmount := subtotal, discountAmount := discount_amount,
               finalAmount := final_amount }] } c.code
    | none => db2
  CartService.clear_cart db3 uid

/-- `OrderService.create_order` (src/orders/services.py lines 20-99):
address lookup, cart validation, subtotal, optional coupon, then the atomic
creation block. An error at any point aborts with no state change. -/
def OrderService.create_order (db : DB) (uid : Nat) (address_id : Nat)
    (coupon_code : Option String) : Except String (Nat × DB) :=
  match db.addresses.find? (fun a => a.id == address_id && a.userId == uid) with
  | none => .error "Address not found"
  | some address =>
    match CartService.validate_cart_for_checkout db uid with
    | .error e => .error e
    | .ok cart_items =>
      let subtotal := cartSubtotal cart_items
      match couponResolve db uid coupon_code subtotal with
      | .error e => .error e
      | .ok cdf =>
        .ok (db.nextOrderId,
          creationEffect db uid db.nextOrderId address.id cart_items cdf.1
            subtotal cdf.2.1 cdf.2.2)

/-- `[choice[0] for choice in Order.STATUS_CHOICES]`
(src/orders/models.py lines 8-14, src/orders/services.py line 157). -/
def valid_statuses : List String :=
  ["pending", "preparing", "on_the_way", "delivered", "cancelled"]

/-- The `valid_transitions` dict of `OrderService._is_valid_status_transition`
(src/orders/services.py lines 184-191), with `dict.get(current, [])` for
unknown keys. -/
def OrderService.valid_transitions (current : String) : List String :=
  if current == "pending" then ["preparing", "cancelled"]
  else if current == "preparing" then ["on_the_way", "cancelled"]
  else if current == "on_the_way" then ["delivered", "cancelled"]
  else if current == "delivered" then []
  else if current == "cancelled" then []
  else []

/-- `OrderService._is_valid_status_transition` (src/orders/services.py lines
172-197): staying in the same status is always allowed, otherwise the target
must be in the transition table of the current status. -/
def OrderService.is_valid_status_transition (current_status new_status : String) : Bool :=
  current_status == new_status ||
    (OrderService.valid_transitions current_status).contains new_status

/-- `OrderService.update_order_status` (src/orders/services.py lines 138-170):
fetch the order, reject a status outside `valid_statuses` before the
transition table is consulted, reject a disallowed transition, else persist
via `order.save(update_fields=['status'])`. -/
def OrderService.update_order_status (db : DB) (order_id : Nat)
    (new_status : String) : Except String DB :=
  match db.findOrder order_id with
  | none => .error "Order not found"
  | some order =>
    if !(valid_statuses.contains new_status) then
      .error ("Invalid status. Must be one of: " ++ String.intercalate ", " valid_statuses)
    else if !(OrderService.is_valid_status_transition order.status new_status) then
      .error ("Cannot transition from '" ++ order.status ++ "' to '" ++ new_status ++ "'")
    else
      .ok (orderSaveStatus db order_id new_status)

/-- `OrderService.cancel_order` (src/orders/services.py lines 199-234):
`get_object_or_404(Order, id=order_id, user=user)`, reject terminal statuses,
then — inside `transaction.atomic()` — loop over `order.items.all()` restoring
inventory and finally set the status to `"cancelled"`.

Faithful to the source: the loop body evaluates `item.product`, but the
`OrderItem` model (src/orders/models.py lines 88-99) defines no `product`
attribute or relation — only the plain integer column `product_id`. Python
therefore raises `AttributeError` on the first iteration and the atomic block
rolls everything back, so the embedding errors whenever the order has at
least one item; only an order with no items reaches the status update. -/
def OrderService.cancel_order (db : DB) (order_id : Nat) (uid : Nat) :
    Except String DB :=
  match db.orders.find? (fun o => o.id == order_id && o.userId == uid) with
  | none => .error "Order not found"
  | some order =>
    if order.status == "delivered" || order.status == "cancelled" then
      .error ("Cannot cancel order with status '" ++ order.status ++ "'")
    else
      if (db.orderItemsOf order_id).isEmpty then
        .ok (orderSaveStatus db order_id "cancelled")
      else
        .error "AttributeError: 'OrderItem' object has no attribute 'product'"

/-- The database state observed after `OrderService.create_order`: on an
exception nothing was written (the raise happens before the atomic block or
rolls it back), so the state is unchanged. -/
def runCreate (db : DB) (uid : Nat) (address_id : Nat)
    (coupon_code : Option String) : DB :=
  match OrderService.create_order db uid address_id coupon_code with
  | .ok res => res.2
  | .error _ => db

/-- The database state observed after `OrderService.update_order_status`:
a rejected update raises before any write, leaving the state unchanged. -/
def runUpdate (db : DB) (order_id : Nat) (new_status : String) : DB :=
  match OrderService.update_order_status db order_id new_status with
  | .ok db1 => db1
  | .error _ => db

/-- The database state observed after `OrderService.cancel_order`: a rejected
or crashed cancellation leaves the state unchanged (the atomic block rolls
back). -/
def runCancel (db : DB) (order_id : Nat) (uid : Nat) : DB :=
  match OrderService.cancel_order db order_id uid with
  | .ok db1 => db1
  | .error _ => db

deriving instance DecidableEq for Except

/-- The discount computation as claim C2 reads it: the percentage cap applies
whenever `maximum_discount_amount` is set (non-null), regardless of its value.
Used only to compare the claim's reading against the source. -/
def calculate_discount_claim (c : Coupon) (order_amount : Int) : Int × Int :=
  if order_amount < c.minimumOrderAmount then
    (0, order_amount)
  else
    let discount :=
      if c.discountType = DiscountType.percentage then
        let d := roundHalfEven (order_amount * c.discountValue) 10000
        match c.maximumDiscountAmount with
        | some m => if m < d then m else d
        | none => d
      else
        c.discountValue
    let discount := min discount order_amount
    (discount, order_amount - discount)

/-- The amended closed form of the discount: percentage discounts are rounded
half-even to cents and capped by `maximum_discount_amount` only when that cap
is set *and nonzero*; fixed discounts use `discount_value`; the result is
clamped to the order amount. -/
def discount_formula (c : Coupon) (order_amount : Int) : Int :=
  let base :=
    if c.discountType = DiscountType.percentage then
      match c.maximumDiscountAmount with
      | some m =>
        if m = 0 then roundHalfEven (order_amount * c.discountValue) 10000
        else min m (roundHalfEven (order_amount * c.discountValue) 10000)
      | none => roundHalfEven (order_amount * c.discountValue) 10000
    else c.discountValue
  min base order_amount

/-- The running sum of `InventoryTransaction.quantity_change` values of a
ledger (spec section 8: applied to the initial quantity it should equal the
current quantity). -/
def ledgerSum (txs : List InventoryTransaction) : Int :=
  (txs.map (fun t => t.quantityChange)).sum

/-- The pricing invariant claimed for every order:
`total_price == subtotal - discount_amount`. -/
def priceEq (o : Order) : Prop :=
  o.totalPrice = o.subtotal - o.discountAmount

/-- The pricing invariant for every order row of the database. -/
def allPriceEq (db : DB) : Prop :=
  ∀ o ∈ db.orders, priceEq o

/-- Primary-key sanity for the autoincrement id handed to the next created
order: no existing order or order item already carries it. -/
def DB.freshWF (db : DB) : Prop :=
  (∀ o ∈ db.orders, o.id ≠ db.nextOrderId) ∧
  (∀ it ∈ db.orderItems, it.orderId ≠ db.nextOrderId)

/-- Cart rows as Django stores them: snapshot prices are nonnegative money
and quantities are nonnegative (`PositiveIntegerField`). -/
def DB.cartNonneg (db : DB) : Prop :=
  ∀ ci ∈ db.cartItems, 0 ≤ ci.price ∧ 0 ≤ ci.quantity

instance (db : DB) : Decidable db.freshWF := by
  unfold DB.freshWF
  infer_instance

instance (db : DB) : Decidable db.cartNonneg := by
  unfold DB.cartNonneg
  infer_instance

/-- An empty database with autoincrement counters at 1. -/
def emptyDB : DB :=
  { now := 0, products := [], inventories := [], invTransactions := [],
    cartItems := [], addresses := [], coupons := [], couponUsages := [],
    orders := [], orderItems := [], history := [],
    nextOrderId := 1, nextOrderItemId := 1 }

/-- `SAVE10`: 10 percent off, minimum order 20.00, no cap (spec scenario B). -/
def saveTen : Coupon :=
  { code := "SAVE10", discountType := DiscountType.percentage,
    discountValue := 1000, minimumOrderAmount := 2000,
    maximumDiscountAmount := none, maxUsageTotal := none,
    maxUsagePerUser := 1, currentUsageCount := 0,
    isUserSpecific := false, allowedUsers := [],
    validFrom := -5, validUntil := 5, isActive := true }

/-- A percentage coupon whose `maximum_discount_amount` is set to `0.00`:
a legal row (`MinValueValidator(0)`, `null=True`) separating the claim's
"capped when set" from the code's truthiness test. -/
def capZeroCoupon : Coupon :=
  { code := "CAP0", discountType := DiscountType.percentage,
    discountValue := 1000, minimumOrderAmount := 0,
    maximumDiscountAmount := some 0, maxUsageTotal := none,
    maxUsagePerUser := 1, currentUsageCount := 0,
    isUserSpecific := false, allowedUsers := [],
    validFrom := -5, validUntil := 5, isActive := true }

/-- Scenario B state: user 1 with address 1, a two-line cart totalling 25.00
(10.00 x 2 and 5.00 x 1), and the `SAVE10` coupon. -/
def scenarioBdb : DB :=
  { emptyDB with
      products := [ { id := 10, name := "Pizza", price := 1000, isAvailable := true },
                    { id := 11, name := "Cola", price := 500, isAvailable := true } ],
      cartItems := [ { userId := 1, productId := 10, quantity := 2, price := 1000 },
                     { userId := 1, productId := 11, quantity := 1, price := 500 } ],
      addresses := [ { id := 1, userId := 1 } ],
      coupons := [saveTen] }

/-- Scenario C state: the same user and coupon but a 15.00 cart, below the
coupon's 20.00 minimum. -/
def scenarioCdb : DB :=
  { emptyDB with
      products := [ { id := 10, name := "Pizza", price := 1500, isAvailable := true } ],
      cartItems := [ { userId := 1, productId := 10, quantity := 1, price := 1500 } ],
      addresses := [ { id := 1, userId := 1 } ],
      coupons := [saveTen] }

/-- Scenario D state: a tracked-inventory product with 3 units on hand and a
cart requesting 5 of it. -/
def scenarioDdb : DB :=
  { emptyDB with
      products := [ { id := 20, name := "Burger", price := 800, isAvailable := true } ],
      inventories := [ { productId := 20, quantity := 3, lowStockThreshold := 10,
                         autoDisableOnZero := true } ],
      cartItems := [ { userId := 1, productId := 20, quantity := 5, price := 800 } ],
      addresses := [ { id := 1, userId := 1 } ] }

/-- Ledger-audit state: a tracked-inventory product with 5 units on hand, an
empty transaction log, and a cart ordering 2 of it. -/
def ledgerDB : DB :=
  { emptyDB with
      products := [ { id := 10, name := "Pizza", price := 1000, isAvailable := true } ],
      inventories := [ { productId := 10, quantity := 5, lowStockThreshold := 2,
                         autoDisableOnZero := true } ],
      cartItems := [ { userId := 1, productId := 10, quantity := 2, price := 1000 } ],
      addresses := [ { id := 1, userId := 1 } ] }

/-- An order committed with a fixed 10.00 coupon discount on a 25.00 subtotal
(two lines: 20.00 and 5.00), as `create_order` would persist it. -/
def fixedDiscountOrderDB : DB :=
  { emptyDB with
      orders := [ { id := 1, userId := 1, subtotal := 2500, discountAmount := 1000,
                    totalPrice := 1500, couponCode := "FLAT10", status := "pending",
                    addressId := 1 } ],
      orderItems := [ { id := 1, orderId := 1, productId := 10, productName := "Pizza",
                        price := 2000, quantity := 1 },
                      { id := 2, orderId := 1, productId := 11, productName := "Cola",
                        price := 500, quantity := 1 } ],
      history := [ { orderId := 1, status := "pending" } ],
      nextOrderId := 2, nextOrderItemId := 3 }

/-- A single-order state with the given stored status, owned by user 7. -/
def statusDB (s : String) : DB :=
  { emptyDB with
      orders := [ { id := 1, userId := 7, subtotal := 1000, discountAmount := 0,
                    totalPrice := 1000, couponCode := "", status := s, addressId := 1 } ],
      history := [ { orderId := 1, status := "pending" } ],
      nextOrderId := 2 }

/-- An `on_the_way` order owned by user 7 with one line of a tracked-inventory
product — the exact shape scenario E cancels. -/
def cancelDB : DB :=
  { emptyDB with
      products := [ { id := 10, name := "Pizza", price := 1000, isAvailable := true } ],
      inventories := [ { productId := 10, quantity := 0, lowStockThreshold := 2,
                         autoDisableOnZero := false } ],
      orders := [ { id := 1, userId := 7, subtotal := 2000, discountAmount := 0,
                    totalPrice := 2000, couponCode := "", status := "on_the_way",
                    addressId := 1 } ],
      orderItems := [ { id := 1, orderId := 1, productId := 10, productName := "Pizza",
                        price := 1000, quantity := 2 } ],
      history := [ { orderId := 1, status := "pending" },
                   { orderId := 1, status := "preparing" },
                   { orderId := 1, status := "on_the_way" } ],
      nextOrderId := 2, nextOrderItemId := 2 }

theorem find?_id_map (l : List Order) (oid : Nat) (f : Order → Order)
    (hf : ∀ o, (f o).id = o.id) :
    (l.map f).find? (fun o => o.id == oid) = (l.find? (fun o => o.id == oid)).map f := by
  have hp : ((fun (o : Order) => o.id == oid) ∘ f) = (fun o => o.id == oid) := by
    funext x
    simp [Function.comp, hf]
  rw [List.find?_map, hp]

theorem find?_code_map (l : List Coupon) (code : String) (f : Coupon → Coupon)
    (hf : ∀ c, (f c).code = c.code) :
    (l.map f).find? (fun c => c.code == code) = (l.find? (fun c => c.code == code)).map f := by
  have hp : ((fun (c : Coupon) => c.code == code) ∘ f) = (fun c => c.code == code) := by
    funext x
    simp [Function.comp, hf]
  rw [List.find?_map, hp]

theorem clear_cart_frame (db : DB) (uid : Nat) :
    (CartService.clear_cart db uid).orders = db.orders ∧
    (CartService.clear_cart db uid).orderItems = db.orderItems ∧
    (CartService.clear_cart db uid).history = db.history ∧
    (CartService.clear_cart db uid).couponUsages = db.couponUsages ∧
    (CartService.clear_cart db uid).coupons = db.coupons ∧
    (CartService.clear_cart db uid).invTransactions = db.invTransactions ∧
    (CartService.clear_cart db uid).inventories = db.inventories :=
  ⟨rfl, rfl, rfl, rfl, rfl, rfl, rfl⟩

theorem increment_usage_frame (db : DB) (code : String) :
    (Coupon.increment_usage db code).orders = db.orders ∧
    (Coupon.increment_usage db code).orderItems = db.orderItems ∧
    (Coupon.increment_usage db code).history = db.history ∧
    (Coupon.increment_usage db code).couponUsages = db.couponUsages ∧
    (Coupon.increment_usage db code).invTransactions = db.invTransactions ∧
    (Coupon.increment_usage db code).inventories = db.inventories ∧
    (Coupon.increment_usage db code).cartItems = db.cartItems :=
  ⟨rfl, rfl, rfl, rfl, rfl, rfl, rfl⟩

theorem increment_usage_findCoupon (db : DB) (code lookup : String) :
    (Coupon.increment_usage db code).findCoupon lookup =
      (db.findCoupon lookup).map (fun c =>
        if c.code == code then { c with currentUsageCount := c.currentUsageCount + 1 } else c) := by
  unfold Coupon.increment_usage DB.findCoupon
  exact find?_code_map _ _ _ (fun c => by by_cases hc : c.code == code <;> simp [hc])

theorem update_order_total_frame (db : DB) (oid : Nat) :
    (update_order_total db oid).orderItems = db.orderItems ∧
    (update_order_total db oid).history = db.history ∧
    (update_order_total db oid).couponUsages = db.couponUsages ∧
    (update_order_total db oid).coupons = db.coupons ∧
    (update_order_total db oid).invTransactions = db.invTransactions ∧
    (update_order_total db oid).inventories = db.inventories ∧
    (update_order_total db oid).cartItems = db.cartItems := by
  unfold update_order_total
  rcases hfo : db.findOrder oid with _ | o
  · exact ⟨rfl, rfl, rfl, rfl, rfl, rfl, rfl⟩
  · dsimp only
    split <;> exact ⟨rfl, rfl, rfl, rfl, rfl, rfl, rfl⟩

theorem orderItemCreate_frame (db : DB) (it : OrderItem) :
    (orderItemCreate db it).history = db.history ∧
    (orderItemCreate db it).couponUsages = db.couponUsages ∧
    (orderItemCreate db it).coupons = db.coupons ∧
    (orderItemCreate db it).invTransactions = db.invTransactions ∧
    (orderItemCreate db it).inventories = db.inventories ∧
    (orderItemCreate db it).cartItems = db.cartItems ∧
    (orderItemCreate db it).orderItems = db.orderItems ++ [it] := by
  unfold orderItemCreate
  have h := update_order_total_frame
    { db with orderItems := db.orderItems ++ [it], nextOrderItemId := db.nextOrderItemId + 1 }
    it.orderId
  exact ⟨h.2.1, h.2.2.1, h.2.2.2.1, h.2.2.2.2.1, h.2.2.2.2.2.1, h.2.2.2.2.2.2, h.1⟩

theorem inventorySave_frame (db : DB) (inv : ProductInventory) :
    (inventorySave db inv).orders = db.orders ∧
    (inventorySave db inv).orderItems = db.orderItems ∧
    (inventorySave db inv).history = db.history ∧
    (inventorySave db inv).couponUsages = db.couponUsages ∧
    (inventorySave db inv).coupons = db.coupons ∧
    (inventorySave db inv).invTransactions = db.invTransactions ∧
    (inventorySave db inv).cartItems = db.cartItems := by
  unfold inventorySave
  split <;> exact ⟨rfl, rfl, rfl, rfl, rfl, rfl, rfl⟩

theorem orderCreate_frame (db : DB) (o : Order) :
    (orderCreate db o).orders = db.orders ++ [o] ∧
    (orderCreate db o).history = db.history ++ [{ orderId := o.id, status := o.status }] ∧
    (orderCreate db o).orderItems = db.orderItems ∧
    (orderCreate db o).couponUsages = db.couponUsages ∧
    (orderCreate db o).coupons = db.coupons ∧
    (orderCreate db o).invTransactions = db.invTransactions ∧
    (orderCreate db o).inventories = db.inventories ∧
    (orderCreate db o).cartItems = db.cartItems :=
  ⟨rfl, rfl, rfl, rfl, rfl, rfl, rfl, rfl⟩

theorem orderSaveStatus_frame (db : DB) (oid : Nat) (s : String) :
    (orderSaveStatus db oid s).orders =
      db.orders.map (fun o => if o.id == oid then { o with status := s } else o) ∧
    (orderSaveStatus db oid s).orderItems = db.orderItems ∧
    (orderSaveStatus db oid s).couponUsages = db.couponUsages ∧
    (orderSaveStatus db oid s).coupons = db.coupons ∧
    (orderSaveStatus db oid s).invTransactions = db.invTransactions ∧
    (orderSaveStatus db oid s).inventories = db.inventories ∧
    (orderSaveStatus db oid s).cartItems = db.cartItems := by
  unfold orderSaveStatus
  rcases hfo : db.findOrder oid with _ | o <;> dsimp only
  · exact ⟨rfl, rfl, rfl, rfl, rfl, rfl, rfl⟩
  · split <;> exact ⟨rfl, rfl, rfl, rfl, rfl, rfl, rfl⟩

theorem orderSaveStatus_findOrder {db : DB} {oid : Nat} {o : Order} (s : String)
    (h : db.findOrder oid = some o) :
    (orderSaveStatus db oid s).findOrder oid = some { o with status := s } := by
  have horders := (orderSaveStatus_frame db oid s).1
  have hid : ∀ x : Order,
      ((fun x => if x.id == oid then { x with status := s } else x) x).id = x.id := by
    intro x
    by_cases hx : x.id == oid <;> simp [hx]
  have hmap := find?_id_map db.orders oid _ hid
  have hbeq := List.find?_some h
  simp only at hbeq
  unfold DB.findOrder at h ⊢
  rw [horders, hmap, h]
  simp [hbeq]
  intro hc
  exact absurd (by simpa using hbeq) hc

theorem orderSaveStatus_history {db : DB} {oid : Nat} {o : Order} (s : String)
    (h : db.findOrder oid = some o) :
    (orderSaveStatus db oid s).history =
      if o.status ≠ s then db.history ++ [{ orderId := oid, status := s }]
      else db.history := by
  unfold orderSaveStatus
  rw [h]
  dsimp only
  split <;> simp_all

theorem update_order_total_findOrder {db : DB} {oid : Nat} {o : Order}
    (h : db.findOrder oid = some o) :
    (update_order_total db oid).findOrder oid =
      some (if o.subtotal ≠ db.orderSubtotalOf oid then
              { o with subtotal := db.orderSubtotalOf oid,
                       totalPrice := db.orderSubtotalOf oid - o.discountAmount }
            else o) := by
  by_cases hc : o.subtotal = db.orderSubtotalOf oid
  · rw [if_neg (fun hn => hn hc)]
    unfold update_order_total
    rw [h]
    dsimp only
    rw [if_neg (fun hn => hn hc)]
    exact h
  · rw [if_pos hc]
    unfold update_order_total
    rw [h]
    dsimp only
    rw [if_pos hc]
    have hid : ∀ x : Order,
        ((fun x => if x.id == oid then
            { x with subtotal := db.orderSubtotalOf oid,
                     totalPrice := db.orderSubtotalOf oid - x.discountAmount }
          else x) x).id = x.id := by
      intro x
      by_cases hx : x.id == oid <;> simp [hx]
    have hmap := find?_id_map db.orders oid _ hid
    have hbeq := List.find?_some h
    simp only at hbeq
    unfold DB.findOrder at h ⊢
    dsimp only
    rw [hmap, h]
    simp [hbeq]
    intro hz
    exact absurd (by simpa using hbeq) hz

theorem update_order_total_orderSubtotalOf (db : DB) (oid oid2 : Nat) :
    (update_order_total db oid).orderSubtotalOf oid2 = db.orderSubtotalOf oid2 := by
  unfold DB.orderSubtotalOf DB.orderItemsOf
  rw [(update_order_total_frame db oid).1]

theorem update_order_total_spec {db : DB} {oid : Nat} {o : Order}
    (h : db.findOrder oid = some o) (hp : priceEq o) :
    ∃ o2, (update_order_total db oid).findOrder oid = some o2 ∧ priceEq o2 ∧
      o2.discountAmount = o.discountAmount ∧
      o2.subtotal = db.orderSubtotalOf oid := by
  by_cases hc : o.subtotal = db.orderSubtotalOf oid
  · rw [update_order_total_findOrder h, if_neg (fun hn => hn hc)]
    exact ⟨o, rfl, hp, rfl, hc⟩
  · rw [update_order_total_findOrder h, if_pos hc]
    exact ⟨_, rfl, rfl, rfl, rfl⟩

theorem inventorySave_findOrder (db : DB) (inv : ProductInventory) (oid : Nat) :
    (inventorySave db inv).findOrder oid = db.findOrder oid := by
  unfold DB.findOrder
  rw [(inventorySave_frame db inv).1]

theorem inventorySave_orderSubtotalOf (db : DB) (inv : ProductInventory) (oid : Nat) :
    (inventorySave db inv).orderSubtotalOf oid = db.orderSubtotalOf oid := by
  unfold DB.orderSubtotalOf DB.orderItemsOf
  rw [(inventorySave_frame db inv).2.1]

theorem orderItemCreate_spec {db : DB} {oid : Nat} {o : Order} (it : OrderItem)
    (hit : it.orderId = oid) (h : db.findOrder oid = some o) (hp : priceEq o) :
    ∃ o2, (orderItemCreate db it).findOrder oid = some o2 ∧ priceEq o2 ∧
      o2.discountAmount = o.discountAmount ∧
      o2.subtotal = (orderItemCreate db it).orderSubtotalOf oid ∧
      (orderItemCreate db it).orderSubtotalOf oid =
        db.orderSubtotalOf oid + it.price * it.quantity := by
  unfold orderItemCreate
  dsimp only
  rw [hit]
  have h1 : ({ db with
                 orderItems := db.orderItems ++ [it],
                 nextOrderItemId := db.nextOrderItemId + 1 } : DB).findOrder oid = some o := h
  have hs1 : ({ db with
                 orderItems := db.orderItems ++ [it],
                 nextOrderItemId := db.nextOrderItemId + 1 } : DB).orderSubtotalOf oid =
      db.orderSubtotalOf oid + it.price * it.quantity := by
    unfold DB.orderSubtotalOf DB.orderItemsOf
    dsimp only
    rw [List.filter_append]
    simp [hit]
  obtain ⟨o2, ho2, hpe, hda, hsub⟩ := update_order_total_spec h1 hp
  refine ⟨o2, ho2, hpe, hda, ?_, ?_⟩
  · rw [hsub, ← update_order_total_orderSubtotalOf _ oid oid]
  · rw [update_order_total_orderSubtotalOf, hs1]

theorem processLine_spec {db : DB} {oid : Nat} {o : Order} (item : CartItem)
    (h : db.findOrder oid = some o) (hp : priceEq o) :
    ∃ o2, (processLine db oid item).findOrder oid = some o2 ∧ priceEq o2 ∧
      o2.discountAmount = o.discountAmount ∧
      o2.subtotal = (processLine db oid item).orderSubtotalOf oid ∧
      (processLine db oid item).orderSubtotalOf oid =
        db.orderSubtotalOf oid + item.price * item.quantity := by
  unfold processLine
  dsimp only
  obtain ⟨o2, ho2, hpe, hda, hsub, hsum⟩ := orderItemCreate_spec
    { id := db.nextOrderItemId, orderId := oid, productId := item.productId,
      productName := (match db.findProduct item.productId with
        | some p => p.name
        | none => ""),
      price := item.price, quantity := item.quantity } rfl h hp
  rcases hinv : (orderItemCreate db
      { id := db.nextOrderItemId, orderId := oid, productId := item.productId,
        productName := (match db.findProduct item.productId with
          | some p => p.name
          | none => ""),
        price := item.price, quantity := item.quantity }).findInventory item.productId
    with _ | inv
  · exact ⟨o2, ho2, hpe, hda, hsub, hsum⟩
  · refine ⟨o2, ?_, hpe, hda, ?_, ?_⟩
    · rw [inventorySave_findOrder]
      exact ho2
    · rw [inventorySave_orderSubtotalOf]
      exact hsub
    · rw [inventorySave_orderSubtotalOf]
      exact hsum

theorem processLine_frame (db : DB) (oid : Nat) (item : CartItem) :
    (processLine db oid item).history = db.history ∧
    (processLine db oid item).couponUsages = db.couponUsages ∧
    (processLine db oid item).coupons = db.coupons ∧
    (processLine db oid item).invTransactions = db.invTransactions ∧
    (processLine db oid item).cartItems = db.cartItems := by
  unfold processLine
  dsimp only
  rcases (orderItemCreate db
      { id := db.nextOrderItemId, orderId := oid, productId := item.productId,
        productName := (match db.findProduct item.productId with
          | some p => p.name
          | none => ""),
        price := item.price, quantity := item.quantity }).findInventory item.productId
    with _ | inv
  · exact ⟨(orderItemCreate_frame _ _).1, (orderItemCreate_frame _ _).2.1,
      (orderItemCreate_frame _ _).2.2.1, (orderItemCreate_frame _ _).2.2.2.1,
      (orderItemCreate_frame _ _).2.2.2.2.2.1⟩
  · refine ⟨?_, ?_, ?_, ?_, ?_⟩
    · rw [(inventorySave_frame _ _).2.2.1, (orderItemCreate_frame _ _).1]
    · rw [(inventorySave_frame _ _).2.2.2.1, (orderItemCreate_frame _ _).2.1]
    · rw [(inventorySave_frame _ _).2.2.2.2.1, (orderItemCreate_frame _ _).2.2.1]
    · rw [(inventorySave_frame _ _).2.2.2.2.2.1, (orderItemCreate_frame _ _).2.2.2.1]
    · rw [(inventorySave_frame _ _).2.2.2.2.2.2, (orderItemCreate_frame _ _).2.2.2.2.2.1]

theorem processLoop_frame (oid : Nat) :
    ∀ (items : List CartItem) (db : DB),
      ((items.foldl (fun acc it => processLine acc oid it) db)).history = db.history ∧
      ((items.foldl (fun acc it => processLine acc oid it) db)).couponUsages = db.couponUsages ∧
      ((items.foldl (fun acc it => processLine acc oid it) db)).coupons = db.coupons ∧
      ((items.foldl (fun acc it => processLine acc oid it) db)).invTransactions =
        db.invTransactions := by
  intro items
  induction items with
  | nil => exact fun db => ⟨rfl, rfl, rfl, rfl⟩
  | cons it rest ih =>
    intro db
    have hstep := processLine_frame db oid it
    have hrest := ih (processLine db oid it)
    refine ⟨?_, ?_, ?_, ?_⟩
    · rw [List.foldl_cons, hrest.1, hstep.1]
    · rw [List.foldl_cons, hrest.2.1, hstep.2.1]
    · rw [List.foldl_cons, hrest.2.2.1, hstep.2.2.1]
    · rw [List.foldl_cons, hrest.2.2.2, hstep.2.2.2.1]

theorem cartSubtotal_cons (it : CartItem) (rest : List CartItem) :
    cartSubtotal (it :: rest) = it.price * it.quantity + cartSubtotal rest := by
  simp [cartSubtotal]

theorem processLoop_spec (oid : Nat) :
    ∀ (items : List CartItem) (db : DB) (o : Order),
      db.findOrder oid = some o → priceEq o →
      ∃ o2, ((items.foldl (fun acc it => processLine acc oid it) db)).findOrder oid = some o2 ∧
        priceEq o2 ∧ o2.discountAmount = o.discountAmount ∧
        (items.foldl (fun acc it => processLine acc oid it) db).orderSubtotalOf oid =
          db.orderSubtotalOf oid + cartSubtotal items ∧
        (items = [] → o2 = o) ∧
        (items ≠ [] → o2.subtotal =
          (items.foldl (fun acc it => processLine acc oid it) db).orderSubtotalOf oid) := by
  intro items
  induction items with
  | nil =>
    intro db o h hp
    refine ⟨o, h, hp, rfl, ?_, ?_, ?_⟩
    · simp [cartSubtotal]
    · exact fun _ => rfl
    · exact fun hne => absurd rfl hne
  | cons it rest ih =>
    intro db o h hp
    obtain ⟨o1, ho1, hp1, hd1, hsub1, hsum1⟩ := processLine_spec it h hp
    obtain ⟨o2, ho2, hp2, hd2, hsum2, hnil2, hne2⟩ := ih (processLine db oid it) o1 ho1 hp1
    rw [List.foldl_cons]
    refine ⟨o2, ho2, hp2, hd1 ▸ hd2, ?_, ?_, ?_⟩
    · rw [hsum2, hsum1, cartSubtotal_cons]
      ring
    · intro hc
      exact absurd hc (by simp)
    · intro _
      rcases Decidable.em (rest = []) with hr | hr
      · subst hr
        rw [hnil2 rfl]
        simpa using hsub1
      · exact hne2 hr

theorem clear_cart_findOrder (db : DB) (uid oid : Nat) :
    (CartService.clear_cart db uid).findOrder oid = db.findOrder oid := rfl

theorem increment_usage_findOrder (db : DB) (code : String) (oid : Nat) :
    (Coupon.increment_usage db code).findOrder oid = db.findOrder oid := rfl

theorem creationEffect_history (db : DB) (uid oid aid : Nat) (items : List CartItem)
    (cop : Option Coupon) (s d f : Int) :
    (creationEffect db uid oid aid items cop s d f).history =
      db.history ++ [{ orderId := oid, status := "pending" }] := by
  unfold creationEffect
  rcases cop with _ | c <;> dsimp only
  · rw [(clear_cart_frame _ _).2.2.1, (processLoop_frame oid items _).1]
    rfl
  · rw [(clear_cart_frame _ _).2.2.1, (increment_usage_frame _ _).2.2.1,
      (processLoop_frame oid items _).1]
    rfl

theorem creationEffect_invTransactions (db : DB) (uid oid aid : Nat)
    (items : List CartItem) (cop : Option Coupon) (s d f : Int) :
    (creationEffect db uid oid aid items cop s d f).invTransactions =
      db.invTransactions := by
  unfold creationEffect
  rcases cop with _ | c <;> dsimp only
  · rw [(clear_cart_frame _ _).2.2.2.2.2.1, (processLoop_frame oid items _).2.2.2]
    rfl
  · rw [(clear_cart_frame _ _).2.2.2.2.2.1, (increment_usage_frame _ _).2.2.2.2.1,
      (processLoop_frame oid items _).2.2.2]
    rfl

theorem creationEffect_couponUsages_none (db : DB) (uid oid aid : Nat)
    (items : List CartItem) (s d f : Int) :
    (creationEffect db uid oid aid items none s d f).couponUsages = db.couponUsages ∧
    (creationEffect db uid oid aid items none s d f).coupons = db.coupons := by
  unfold creationEffect
  dsimp only
  constructor
  · rw [(clear_cart_frame _ _).2.2.2.1, (processLoop_frame oid items _).2.1]
    rfl
  · rw [(clear_cart_frame _ _).2.2.2.2.1, (processLoop_frame oid items _).2.2.1]
    rfl

theorem creationEffect_couponUsages_some (db : DB) (uid oid aid : Nat)
    (items : List CartItem) (c : Coupon) (s d f : Int) :
    (creationEffect db uid oid aid items (some c) s d f).couponUsages =
      db.couponUsages ++
        [{ couponCode := c.code, userId := uid, orderId := oid,
           orderAmount := s, discountAmount := d, finalAmount := f }] ∧
    (creationEffect db uid oid aid items (some c) s d f).coupons =
      db.coupons.map (fun x =>
        if x.code == c.code then { x with currentUsageCount := x.currentUsageCount + 1 }
        else x) := by
  unfold creationEffect
  dsimp only
  constructor
  · rw [(clear_cart_frame _ _).2.2.2.1, (increment_usage_frame _ _).2.2.2.1]
    dsimp only
    rw [(processLoop_frame oid items _).2.1]
    rfl
  · rw [(clear_cart_frame _ _).2.2.2.2.1]
    unfold Coupon.increment_usage
    dsimp only
    rw [(processLoop_frame oid items _).2.2.1]
    rfl

theorem orderCreate_findOrder_fresh {db : DB} {oid : Nat} (o : Order)
    (hoid : o.id = oid) (hfresh : ∀ x ∈ db.orders, x.id ≠ oid) :
    (orderCreate db o).findOrder oid = some o := by
  unfold DB.findOrder
  rw [(orderCreate_frame db o).1, List.find?_append]
  have hnone : db.orders.find? (fun x => x.id == oid) = none := by
    rw [List.find?_eq_none]
    intro x hx
    simp [hfresh x hx]
  rw [hnone]
  simp [hoid]

theorem creationEffect_order {db : DB} {uid oid aid : Nat} {items : List CartItem}
    {cop : Option Coupon} {s d f : Int}
    (hfresh : ∀ o ∈ db.orders, o.id ≠ oid)
    (hempty : db.orderSubtotalOf oid = 0)
    (hne : items ≠ [])
    (hf : f = s - d) :
    ∃ o2, (creationEffect db uid oid aid items cop s d f).findOrder oid = some o2 ∧
      o2.subtotal = cartSubtotal items ∧ o2.discountAmount = d ∧
      o2.totalPrice = cartSubtotal items - d := by
  unfold creationEffect
  dsimp only
  set order : Order :=
    { id := oid, userId := uid, subtotal := s, discountAmount := d, totalPrice := f,
      couponCode := (match cop with | some c => c.code | none => ""),
      status := "pending", addressId := aid } with horder
  have h1 : (orderCreate db order).findOrder oid = some order :=
    orderCreate_findOrder_fresh order rfl hfresh
  have hp1 : priceEq order := by
    simp [priceEq, horder, hf]
  have hsub1 : (orderCreate db order).orderSubtotalOf oid = 0 := by
    unfold DB.orderSubtotalOf DB.orderItemsOf
    rw [(orderCreate_frame db order).2.2.1]
    exact hempty
  obtain ⟨o2, ho2, hp2, hd2, hsum2, _, hne2⟩ := processLoop_spec oid items _ order h1 hp1
  have hsumv : (items.foldl (fun acc it => processLine acc oid it)
      (orderCreate db order)).orderSubtotalOf oid = cartSubtotal items := by
    rw [hsum2, hsub1, zero_add]
  have hsub : o2.subtotal = cartSubtotal items := by
    rw [hne2 hne, hsumv]
  refine ⟨o2, ?_, hsub, hd2, ?_⟩
  · rcases cop with _ | c <;> dsimp only
    · rw [clear_cart_findOrder]
      exact ho2
    · rw [clear_cart_findOrder, increment_usage_findOrder]
      exact ho2
  · rw [hp2, hsub, hd2]

theorem calculate_discount_snd (c : Coupon) (a : Int) :
    (c.calculate_discount a).2 = a - (c.calculate_discount a).1 := by
  unfold Coupon.calculate_discount
  split <;> simp

theorem calculate_discount_final_nonneg (c : Coupon) (a : Int) (ha : 0 ≤ a) :
    0 ≤ (c.calculate_discount a).2 := by
  unfold Coupon.calculate_discount
  split
  · exact ha
  · dsimp only
    have : min (if c.discountType = DiscountType.percentage then
        match c.maximumDiscountAmount with
        | some m => if m ≠ 0 ∧ m < roundHalfEven (a * c.discountValue) 10000 then m
                    else roundHalfEven (a * c.discountValue) 10000
        | none => roundHalfEven (a * c.discountValue) 10000
      else c.discountValue) a ≤ a := min_le_right _ _
    omega

theorem validate_cart_ok {db : DB} {uid : Nat} {items : List CartItem}
    (h : CartService.validate_cart_for_checkout db uid = .ok items) :
    items = db.userCartItems uid ∧ items ≠ [] ∧
    (db.userCartItems uid).filterMap (unavailableNameOf db) = [] ∧
    (db.userCartItems uid).filterMap (stockIssueOf db) = [] := by
  unfold CartService.validate_cart_for_checkout at h
  dsimp only at h
  by_cases h1 : (db.userCartItems uid).isEmpty
  · rw [if_pos h1] at h
    cases h
  · rw [if_neg h1] at h
    by_cases h2 : ((db.userCartItems uid).filterMap (unavailableNameOf db)).isEmpty
    · rw [h2] at h
      by_cases h3 : ((db.userCartItems uid).filterMap (stockIssueOf db)).isEmpty
      · rw [h3] at h
        simp only [Bool.not_true, if_false] at h
        cases h
        exact ⟨rfl, by simpa [List.isEmpty_iff] using h1,
          by simpa [List.isEmpty_iff] using h2, by simpa [List.isEmpty_iff] using h3⟩
      · rw [Bool.not_eq_true] at h3
        rw [h3] at h
        simp only [Bool.not_false, if_true] at h
        cases h
    · rw [Bool.not_eq_true] at h2
      rw [h2] at h
      simp only [Bool.not_false, if_true] at h
      cases h

theorem validate_cart_stock_error {db : DB} {uid : Nat}
    (hA : (db.userCartItems uid).filterMap (unavailableNameOf db) = [])
    (hS : (db.userCartItems uid).filterMap (stockIssueOf db) ≠ []) :
    CartService.validate_cart_for_checkout db uid =
      .error ("Insufficient stock: " ++
        String.intercalate ", " ((db.userCartItems uid).filterMap (stockIssueOf db))) := by
  have hne : db.userCartItems uid ≠ [] := by
    intro hz
    rw [hz] at hS
    exact hS rfl
  unfold CartService.validate_cart_for_checkout
  dsimp only
  rw [if_neg (by simpa [List.isEmpty_iff] using hne)]
  rw [hA]
  rw [if_neg (by simp)]
  rw [if_pos (by simpa [List.isEmpty_iff] using hS)]

theorem couponResolve_final_eq {db : DB} {uid : Nat} {cc : Option String}
    {s : Int} {cop : Option Coupon} {d f : Int}
    (h : couponResolve db uid cc s = .ok (cop, d, f)) : f = s - d := by
  rcases cc with _ | raw
  · unfold couponResolve at h
    cases h
    simp
  · unfold couponResolve at h
    dsimp only at h
    by_cases hr : raw == ""
    · rw [if_pos hr] at h
      cases h
      simp
    · rw [if_neg hr] at h
      rcases hac : OrderService.apply_coupon db uid (pyStrip (pyUpper raw)) s with e | cdf
      · rw [hac] at h
        cases h
      · rw [hac] at h
        cases h
        unfold OrderService.apply_coupon at hac
        rcases hfc : db.findCoupon (pyStrip (pyUpper raw)) with _ | coupon
        · rw [hfc] at hac
          cases hac
        · rw [hfc] at hac
          dsimp only at hac
          by_cases hcu : (coupon.can_user_use db uid).1
          · rw [if_neg (by simp [hcu])] at hac
            by_cases hmin : s < coupon.minimumOrderAmount
            · rw [if_pos hmin] at hac
              cases hac
            · rw [if_neg hmin] at hac
              cases hac
              exact calculate_discount_snd coupon s
          · simp only [Bool.not_eq_true] at hcu
            rw [if_pos (by simp [hcu])] at hac
            cases hac

theorem couponResolve_final_nonneg {db : DB} {uid : Nat} {cc : Option String}
    {s : Int} {cop : Option Coupon} {d f : Int}
    (h : couponResolve db uid cc s = .ok (cop, d, f)) (hs : 0 ≤ s) : 0 ≤ f := by
  rcases cc with _ | raw
  · unfold couponResolve at h
    cases h
    exact hs
  · unfold couponResolve at h
    dsimp only at h
    by_cases hr : raw == ""
    · rw [if_pos hr] at h
      cases h
      exact hs
    · rw [if_neg hr] at h
      rcases hac : OrderService.apply_coupon db uid (pyStrip (pyUpper raw)) s with e | cdf
      · rw [hac] at h
        cases h
      · rw [hac] at h
        cases h
        unfold OrderService.apply_coupon at hac
        rcases hfc : db.findCoupon (pyStrip (pyUpper raw)) with _ | coupon
        · rw [hfc] at hac
          cases hac
        · rw [hfc] at hac
          dsimp only at hac
          by_cases hcu : (coupon.can_user_use db uid).1
          · rw [if_neg (by simp [hcu])] at hac
            by_cases hmin : s < coupon.minimumOrderAmount
            · rw [if_pos hmin] at hac
              cases hac
            · rw [if_neg hmin] at hac
              cases hac
              exact calculate_discount_final_nonneg coupon s hs
          · simp only [Bool.not_eq_true] at hcu
            rw [if_pos (by simp [hcu])] at hac
            cases hac

theorem apply_coupon_ok_elim {db : DB} {uid : Nat} {code : String} {s : Int}
    {c : Coupon} {d f : Int}
    (h : OrderService.apply_coupon db uid code s = .ok (c, d, f)) :
    db.findCoupon code = some c ∧ (c.can_user_use db uid).1 = true ∧
    ¬ s < c.minimumOrderAmount ∧
    d = (c.calculate_discount s).1 ∧ f = (c.calculate_discount s).2 := by
  unfold OrderService.apply_coupon at h
  rcases hfc : db.findCoupon code with _ | coupon
  · rw [hfc] at h
    cases h
  · rw [hfc] at h
    dsimp only at h
    by_cases hcu : (coupon.can_user_use db uid).1
    · rw [if_neg (by simp [hcu])] at h
      by_cases hmin : s < coupon.minimumOrderAmount
      · rw [if_pos hmin] at h
        cases h
      · rw [if_neg hmin] at h
        simp only [Except.ok.injEq, Prod.mk.injEq] at h
        obtain ⟨hc1, hc2, hc3⟩ := h
        subst hc1
        exact ⟨rfl, hcu, hmin, hc2.symm, hc3.symm⟩
    · simp only [Bool.not_eq_true] at hcu
      rw [if_pos (by simp [hcu])] at h
      cases h

theorem apply_coupon_error_elim {db : DB} {uid : Nat} {code : String} {s : Int}
    {e : String}
    (h : OrderService.apply_coupon db uid code s = .error e) :
    (db.findCoupon code = none ∧ e = "Invalid coupon code") ∨
    (∃ c, db.findCoupon code = some c ∧ (c.can_user_use db uid).1 = false ∧
      e = (c.can_user_use db uid).2) ∨
    (∃ c, db.findCoupon code = some c ∧ (c.can_user_use db uid).1 = true ∧
      s < c.minimumOrderAmount ∧
      e = "Minimum order amount of $" ++ toString c.minimumOrderAmount ++
        " required for this coupon") := by
  unfold OrderService.apply_coupon at h
  rcases hfc : db.findCoupon code with _ | coupon
  · rw [hfc] at h
    cases h
    exact Or.inl ⟨rfl, rfl⟩
  · rw [hfc] at h
    dsimp only at h
    by_cases hcu : (coupon.can_user_use db uid).1
    · rw [if_neg (by simp [hcu])] at h
      by_cases hmin : s < coupon.minimumOrderAmount
      · rw [if_pos hmin] at h
        cases h
        exact Or.inr (Or.inr ⟨coupon, rfl, hcu, hmin, rfl⟩)
      · rw [if_neg hmin] at h
        cases h
    · simp only [Bool.not_eq_true] at hcu
      rw [if_pos (by simp [hcu])] at h
      cases h
      exact Or.inr (Or.inl ⟨coupon, rfl, hcu, rfl⟩)

theorem create_order_ok_elim {db : DB} {uid aid : Nat} {cc : Option String}
    {oid : Nat} {db2 : DB}
    (h : OrderService.create_order db uid aid cc = .ok (oid, db2)) :
    ∃ a items cdf,
      db.addresses.find? (fun x => x.id == aid && x.userId == uid) = some a ∧
      CartService.validate_cart_for_checkout db uid = .ok items ∧
      couponResolve db uid cc (cartSubtotal items) = .ok cdf ∧
      oid = db.nextOrderId ∧
      db2 = creationEffect db uid db.nextOrderId a.id items cdf.1 (cartSubtotal items)
        cdf.2.1 cdf.2.2 := by
  unfold OrderService.create_order at h
  rcases ha : db.addresses.find? (fun x => x.id == aid && x.userId == uid) with _ | a
  · rw [ha] at h
    cases h
  · rw [ha] at h
    dsimp only at h
    rcases hv : CartService.validate_cart_for_checkout db uid with e | items
    · rw [hv] at h
      cases h
    · rw [hv] at h
      dsimp only at h
      rcases hcr : couponResolve db uid cc (cartSubtotal items) with e | cdf
      · rw [hcr] at h
        cases h
      · rw [hcr] at h
        simp only [Except.ok.injEq, Prod.mk.injEq] at h
        obtain ⟨h1, h2⟩ := h
        exact ⟨a, items, cdf, ha, rfl, hcr, h1.symm, h2.symm⟩

theorem create_order_not_ok_of_couponError {db : DB} {uid aid : Nat} {raw e : String}
    (hcr : couponResolve db uid (some raw)
      (cartSubtotal (db.userCartItems uid)) = .error e) :
    ∀ r, OrderService.create_order db uid aid (some raw) ≠ .ok r := by
  intro r h
  rcases r with ⟨oid, db2⟩
  obtain ⟨a, items, cdf, ha, hv, hcres, _, _⟩ := create_order_ok_elim h
  rw [(validate_cart_ok hv).1, hcr] at hcres
  cases hcres

theorem create_order_error_eq {db : DB} {uid aid : Nat} {raw e : String}
    {a : Address} {items : List CartItem}
    (ha : db.addresses.find? (fun x => x.id == aid && x.userId == uid) = some a)
    (hv : CartService.validate_cart_for_checkout db uid = .ok items)
    (hcr : couponResolve db uid (some raw) (cartSubtotal items) = .error e) :
    OrderService.create_order db uid aid (some raw) = .error e := by
  unfold OrderService.create_order
  rw [ha]
  dsimp only
  rw [hv]
  dsimp only
  rw [hcr]

theorem create_order_error_validate {db : DB} {uid aid : Nat} {cc : Option String}
    {e : String} {a : Address}
    (ha : db.addresses.find? (fun x => x.id == aid && x.userId == uid) = some a)
    (hv : CartService.validate_cart_for_checkout db uid = .error e) :
    OrderService.create_order db uid aid cc = .error e := by
  unfold OrderService.create_order
  rw [ha]
  dsimp only
  rw [hv]

theorem runCreate_eq_of_not_ok {db : DB} {uid aid : Nat} {cc : Option String}
    (h : ∀ r, OrderService.create_order db uid aid cc ≠ .ok r) :
    runCreate db uid aid cc = db := by
  unfold runCreate
  rcases hc : OrderService.create_order db uid aid cc with e | r
  · rfl
  · exact absurd hc (h r)

theorem orderSaveStatus_allPriceEq (db : DB) (oid : Nat) (s : String)
    (h : allPriceEq db) : allPriceEq (orderSaveStatus db oid s) := by
  intro o ho
  rw [(orderSaveStatus_frame db oid s).1] at ho
  obtain ⟨x, hx, hfx⟩ := List.mem_map.mp ho
  subst hfx
  by_cases hxi : x.id == oid
  · simpa [hxi, priceEq] using h x hx
  · simpa [hxi] using h x hx

theorem update_order_total_allPriceEq (db : DB) (oid : Nat)
    (h : allPriceEq db) : allPriceEq (update_order_total db oid) := by
  intro o ho
  unfold update_order_total at ho
  rcases hfo : db.findOrder oid with _ | o0
  · rw [hfo] at ho
    exact h o ho
  · rw [hfo] at ho
    dsimp only at ho
    split at ho
    · obtain ⟨x, hx, hfx⟩ := List.mem_map.mp ho
      subst hfx
      by_cases hxi : x.id == oid
      · simp [hxi, priceEq]
      · simpa [hxi] using h x hx
    · exact h o ho

theorem orderItemCreate_allPriceEq (db : DB) (it : OrderItem)
    (h : allPriceEq db) : allPriceEq (orderItemCreate db it) := by
  unfold orderItemCreate
  dsimp only
  exact update_order_total_allPriceEq _ _ (fun o ho => h o ho)

theorem orderItemDelete_allPriceEq (db : DB) (itemId : Nat)
    (h : allPriceEq db) : allPriceEq (orderItemDelete db itemId) := by
  unfold orderItemDelete
  rcases hf : db.orderItems.find? (fun it => it.id == itemId) with _ | it <;> rw [hf]
  · exact h
  · dsimp only
    exact update_order_total_allPriceEq _ _ (fun o ho => h o ho)

theorem inventorySave_allPriceEq (db : DB) (inv : ProductInventory)
    (h : allPriceEq db) : allPriceEq (inventorySave db inv) := by
  intro o ho
  rw [(inventorySave_frame db inv).1] at ho
  exact h o ho

theorem processLine_allPriceEq (db : DB) (oid : Nat) (item : CartItem)
    (h : allPriceEq db) : allPriceEq (processLine db oid item) := by
  unfold processLine
  dsimp only
  rcases (orderItemCreate db
      { id := db.nextOrderItemId, orderId := oid, productId := item.productId,
        productName := (match db.findProduct item.productId with
          | some p => p.name
          | none => ""),
        price := item.price, quantity := item.quantity }).findInventory item.productId
    with _ | inv
  · exact orderItemCreate_allPriceEq _ _ h
  · exact inventorySave_allPriceEq _ _ (orderItemCreate_allPriceEq _ _ h)

theorem processLoop_allPriceEq (oid : Nat) :
    ∀ (items : List CartItem) (db : DB), allPriceEq db →
      allPriceEq (items.foldl (fun acc it => processLine acc oid it) db) := by
  intro items
  induction items with
  | nil => exact fun db h => h
  | cons it rest ih =>
    intro db h
    rw [List.foldl_cons]
    exact ih _ (processLine_allPriceEq _ _ _ h)

theorem orderCreate_allPriceEq (db : DB) (o : Order)
    (hp : priceEq o) (h : allPriceEq db) : allPriceEq (orderCreate db o) := by
  intro x hx
  rw [(orderCreate_frame db o).1] at hx
  rcases List.mem_append.mp hx with hx1 | hx2
  · exact h x hx1
  · rw [List.mem_singleton.mp hx2]
    exact hp

theorem creationEffect_allPriceEq {db : DB} {uid oid aid : Nat}
    {items : List CartItem} {cop : Option Coupon} {s d f : Int}
    (hf : f = s - d) (h : allPriceEq db) :
    allPriceEq (creationEffect db uid oid aid items cop s d f) := by
  unfold creationEffect
  dsimp only
  have h1 : allPriceEq (orderCreate db
      { id := oid, userId := uid, subtotal := s, discountAmount := d, totalPrice := f,
        couponCode := (match cop with | some c => c.code | none => ""),
        status := "pending", addressId := aid }) :=
    orderCreate_allPriceEq _ _ (by simp [priceEq, hf]) h
  have h2 := processLoop_allPriceEq oid items _ h1
  rcases cop with _ | c <;> dsimp only
  · exact fun o ho => h2 o ho
  · exact fun o ho => h2 o (by
      have hmem := ho
      rw [(clear_cart_frame _ _).1] at hmem
      rw [(increment_usage_frame _ _).1] at hmem
      exact hmem)

theorem contains_iff_mem_str {l : List String} {a : String} :
    l.contains a = true ↔ a ∈ l :=
  List.elem_iff

theorem update_order_status_unknown {db : DB} {oid : Nat} {s : String} {o : Order}
    (h : db.findOrder oid = some o) (hs : s ∉ valid_statuses) :
    OrderService.update_order_status db oid s =
      .error ("Invalid status. Must be one of: " ++ String.intercalate ", " valid_statuses) := by
  unfold OrderService.update_order_status
  rw [h]
  dsimp only
  rw [if_pos (by simpa using hs)]

theorem update_order_status_ok_iff {db : DB} {oid : Nat} {s : String} {o : Order}
    (h : db.findOrder oid = some o) :
    (∃ db2, OrderService.update_order_status db oid s = .ok db2) ↔
      (s ∈ valid_statuses ∧
        (s ∈ OrderService.valid_transitions o.status ∨ s = o.status)) := by
  unfold OrderService.update_order_status
  rw [h]
  dsimp only
  by_cases hc1 : valid_statuses.contains s = true
  · rw [if_neg (by rw [hc1]; simp)]
    by_cases hc2 : OrderService.is_valid_status_transition o.status s = true
    · rw [if_neg (by rw [hc2]; simp)]
      constructor
      · intro _
        refine ⟨contains_iff_mem_str.mp hc1, ?_⟩
        unfold OrderService.is_valid_status_transition at hc2
        simp only [Bool.or_eq_true] at hc2
        rcases hc2 with heq | hmem
        · have heq2 : o.status = s := by simpa using heq
          exact Or.inr heq2.symm
        · exact Or.inl (contains_iff_mem_str.mp hmem)
      · intro _
        exact ⟨_, rfl⟩
    · rw [if_pos (by rw [Bool.eq_false_iff.mpr hc2]; rfl)]
      constructor
      · rintro ⟨db2, hdb2⟩
        cases hdb2
      · rintro ⟨_, hor⟩
        exfalso
        apply hc2
        unfold OrderService.is_valid_status_transition
        simp only [Bool.or_eq_true]
        rcases hor with hmem | heq
        · exact Or.inr (contains_iff_mem_str.mpr hmem)
        · exact Or.inl (by simp [heq])
  · rw [if_pos (by rw [Bool.eq_false_iff.mpr hc1]; rfl)]
    constructor
    · rintro ⟨db2, hdb2⟩
      cases hdb2
    · rintro ⟨hmem, _⟩
      exact absurd (contains_iff_mem_str.mpr hmem) hc1

theorem update_order_status_ok_elim {db : DB} {oid : Nat} {s : String} {db2 : DB}
    (h : OrderService.update_order_status db oid s = .ok db2) :
    ∃ o, db.findOrder oid = some o ∧ db2 = orderSaveStatus db oid s ∧
      OrderService.is_valid_status_transition o.status s = true := by
  unfold OrderService.update_order_status at h
  rcases hfo : db.findOrder oid with _ | o <;> rw [hfo] at h
  · cases h
  · dsimp only at h
    by_cases hc1 : valid_statuses.contains s = true
    · rw [if_neg (by rw [hc1]; simp)] at h
      by_cases hc2 : OrderService.is_valid_status_transition o.status s = true
      · rw [if_neg (by rw [hc2]; simp)] at h
        cases h
        exact ⟨o, rfl, rfl, hc2⟩
      · rw [if_pos (by rw [Bool.eq_false_iff.mpr hc2]; rfl)] at h
        cases h
    · rw [if_pos (by rw [Bool.eq_false_iff.mpr hc1]; rfl)] at h
      cases h

theorem runUpdate_eq_of_not_ok {db : DB} {oid : Nat} {s : String}
    (h : ∀ db2, OrderService.update_order_status db oid s ≠ .ok db2) :
    runUpdate db oid s = db := by
  unfold runUpdate
  rcases hc : OrderService.update_order_status db oid s with e | db2
  · rfl
  · exact absurd hc (h db2)

theorem update_order_status_noop {db : DB} {oid : Nat} {o : Order}
    (h : db.findOrder oid = some o) (hs : o.status ∈ valid_statuses) :
    OrderService.update_order_status db oid o.status =
      .ok (orderSaveStatus db oid o.status) ∧
    (orderSaveStatus db oid o.status).history = db.history ∧
    (orderSaveStatus db oid o.status).findOrder oid = some o := by
  refine ⟨?_, ?_, ?_⟩
  · unfold OrderService.update_order_status
    rw [h]
    dsimp only
    rw [if_neg (by rw [contains_iff_mem_str.mpr hs]; simp)]
    rw [if_neg (by simp [OrderService.is_valid_status_transition])]
  · rw [orderSaveStatus_history o.status h]
    simp
  · have := orderSaveStatus_findOrder o.status h
    simpa using this

theorem cancel_order_ok_elim {db : DB} {oid uid : Nat} {db2 : DB}
    (h : OrderService.cancel_order db oid uid = .ok db2) :
    ∃ o, db.orders.find? (fun x => x.id == oid && x.userId == uid) = some o ∧
      (o.status == "delivered" || o.status == "cancelled") = false ∧
      db.orderItemsOf oid = [] ∧ db2 = orderSaveStatus db oid "cancelled" := by
  unfold OrderService.cancel_order at h
  rcases hfo : db.orders.find? (fun x => x.id == oid && x.userId == uid) with _ | o <;>
    rw [hfo] at h
  · cases h
  · dsimp only at h
    by_cases hst : (o.status == "delivered" || o.status == "cancelled") = true
    · rw [if_pos hst] at h
      cases h
    · rw [if_neg hst] at h
      by_cases hit : (db.orderItemsOf oid).isEmpty = true
      · rw [if_pos hit] at h
        cases h
        exact ⟨o, hfo, Bool.eq_false_iff.mpr hst, List.isEmpty_iff.mp hit, rfl⟩
      · rw [if_neg hit] at h
        cases h

theorem cancel_order_items_error {db : DB} {oid uid : Nat} {o : Order}
    (hfo : db.orders.find? (fun x => x.id == oid && x.userId == uid) = some o)
    (hst : (o.status == "delivered" || o.status == "cancelled") = false)
    (hit : db.orderItemsOf oid ≠ []) :
    OrderService.cancel_order db oid uid =
      .error "AttributeError: 'OrderItem' object has no attribute 'product'" := by
  unfold OrderService.cancel_order
  rw [hfo]
  dsimp only
  rw [if_neg (by simp [hst])]
  rw [if_neg (by simpa [List.isEmpty_iff] using hit)]

theorem runCancel_eq_of_not_ok {db : DB} {oid uid : Nat}
    (h : ∀ db2, OrderService.cancel_order db oid uid ≠ .ok db2) :
    runCancel db oid uid = db := by
  unfold runCancel
  rcases hc : OrderService.cancel_order db oid uid with e | db2
  · rfl
  · exact absurd hc (h db2)

theorem runCancel_invTransactions (db : DB) (oid uid : Nat) :
    (runCancel db oid uid).invTransactions = db.invTransactions := by
  unfold runCancel
  rcases hc : OrderService.cancel_order db oid uid with e | db2
  · rfl
  · obtain ⟨o, _, _, _, hdb2⟩ := cancel_order_ok_elim hc
    rw [hdb2]
    exact (orderSaveStatus_frame db oid "cancelled").2.2.2.2.1

theorem runCreate_invTransactions (db : DB) (uid aid : Nat) (cc : Option String) :
    (runCreate db uid aid cc).invTransactions = db.invTransactions := by
  unfold runCreate
  rcases hc : OrderService.create_order db uid aid cc with e | r
  · rfl
  · rcases r with ⟨oid, db2⟩
    obtain ⟨a, items, cdf, _, _, _, _, hdb2⟩ := create_order_ok_elim hc
    rw [hdb2]
    exact creationEffect_invTransactions _ _ _ _ _ _ _ _ _

theorem runCancel_allPriceEq (db : DB) (oid uid : Nat)
    (h : allPriceEq db) : allPriceEq (runCancel db oid uid) := by
  unfold runCancel
  rcases hc : OrderService.cancel_order db oid uid with e | db2
  · exact h
  · obtain ⟨o, _, _, _, hdb2⟩ := cancel_order_ok_elim hc
    rw [hdb2]
    exact orderSaveStatus_allPriceEq db oid "cancelled" h

theorem runUpdate_allPriceEq (db : DB) (oid : Nat) (s : String)
    (h : allPriceEq db) : allPriceEq (runUpdate db oid s) := by
  unfold runUpdate
  rcases hc : OrderService.update_order_status db oid s with e | db2
  · exact h
  · obtain ⟨o, _, hdb2, _⟩ := update_order_status_ok_elim hc
    rw [hdb2]
    exact orderSaveStatus_allPriceEq db oid s h

theorem runCreate_allPriceEq (db : DB) (uid aid : Nat) (cc : Option String)
    (h : allPriceEq db) : allPriceEq (runCreate db uid aid cc) := by
  unfold runCreate
  rcases hc : OrderService.create_order db uid aid cc with e | r
  · exact h
  · rcases r with ⟨oid, db2⟩
    obtain ⟨a, items, cdf, _, _, hcr, _, hdb2⟩ := create_order_ok_elim hc
    rw [hdb2]
    rcases cdf with ⟨cop, d, f⟩
    exact creationEffect_allPriceEq (couponResolve_final_eq hcr) h

theorem calculate_discount_formula (c : Coupon) (a : Int)
    (hmin0 : 0 ≤ c.minimumOrderAmount) (hge : c.minimumOrderAmount ≤ a) :
    c.calculate_discount a = (discount_formula c a, a - discount_formula c a) ∧
    discount_formula c a ≤ a ∧ 0 ≤ a - discount_formula c a := by
  have hnlt : ¬ a < c.minimumOrderAmount := not_lt.mpr hge
  have hbase : (if c.discountType = DiscountType.percentage then
      (match c.maximumDiscountAmount with
       | some m => if m ≠ 0 ∧ m < roundHalfEven (a * c.discountValue) 10000 then m
                   else roundHalfEven (a * c.discountValue) 10000
       | none => roundHalfEven (a * c.discountValue) 10000)
    else c.discountValue) =
      (if c.discountType = DiscountType.percentage then
        (match c.maximumDiscountAmount with
         | some m => if m = 0 then roundHalfEven (a * c.discountValue) 10000
                     else min m (roundHalfEven (a * c.discountValue) 10000)
         | none => roundHalfEven (a * c.discountValue) 10000)
      else c.discountValue) := by
    by_cases hdt : c.discountType = DiscountType.percentage
    · rw [if_pos hdt, if_pos hdt]
      rcases c.maximumDiscountAmount with _ | m
      · rfl
      · dsimp only
        by_cases hm0 : m = 0
        · rw [if_pos hm0, if_neg (by simp [hm0])]
        · rw [if_neg hm0]
          by_cases hmd : m < roundHalfEven (a * c.discountValue) 10000
          · rw [if_pos ⟨hm0, hmd⟩, min_eq_left (le_of_lt hmd)]
          · rw [if_neg (by simp [hmd]), min_eq_right (le_of_not_lt hmd)]
    · rw [if_neg hdt, if_neg hdt]
  refine ⟨?_, min_le_right _ _, ?_⟩
  · unfold Coupon.calculate_discount discount_formula
    rw [if_neg hnlt]
    dsimp only
    rw [hbase]
  · have := min_le_right (if c.discountType = DiscountType.percentage then
        (match c.maximumDiscountAmount with
         | some m => if m = 0 then roundHalfEven (a * c.discountValue) 10000
                     else min m (roundHalfEven (a * c.discountValue) 10000)
         | none => roundHalfEven (a * c.discountValue) 10000)
      else c.discountValue) a
    unfold discount_formula
    dsimp only
    omega

theorem orderItemDelete_history (db : DB) (itemId : Nat) :
    (orderItemDelete db itemId).history = db.history := by
  unfold orderItemDelete
  split
  · rfl
  · exact (update_order_total_frame _ _).2.1

/-- Claim C1 (amended): for every order, `total_price = subtotal -
discount_amount` holds at creation and is preserved by every state-changing
operation (item inserts and deletes, status updates, cancellation); at
creation `total_price` is additionally nonnegative, and after an item-level
recomputation it is nonnegative provided the recomputed subtotal still covers
`discount_amount`. (The unconditional `total_price ≥ 0` of the original claim
fails after item deletion; see the counterexample.) -/
theorem C1_total_price_equation :
    (∀ (db : DB) (uid aid : Nat) (cc : Option String) (oid : Nat) (db2 : DB),
      OrderService.create_order db uid aid cc = .ok (oid, db2) →
      db.freshWF → db.cartNonneg →
      ∃ o, db2.findOrder oid = some o ∧
        o.totalPrice = o.subtotal - o.discountAmount ∧ 0 ≤ o.totalPrice) ∧
    (∀ (db : DB) (uid aid : Nat) (cc : Option String), allPriceEq db →
      allPriceEq (runCreate db uid aid cc)) ∧
    (∀ (db : DB) (itemId : Nat), allPriceEq db → allPriceEq (orderItemDelete db itemId)) ∧
    (∀ (db : DB) (it : OrderItem), allPriceEq db → allPriceEq (orderItemCreate db it)) ∧
    (∀ (db : DB) (oid : Nat) (s : String), allPriceEq db → allPriceEq (runUpdate db oid s)) ∧
    (∀ (db : DB) (oid uid : Nat), allPriceEq db → allPriceEq (runCancel db oid uid)) ∧
    (∀ (db : DB) (itemId : Nat) (o : Order), allPriceEq db →
      o ∈ (orderItemDelete db itemId).orders →
      o.discountAmount ≤ o.subtotal → 0 ≤ o.totalPrice) := by
  refine ⟨?_, ?_, ?_, ?_, ?_, ?_, ?_⟩
  · intro db uid aid cc oid db2 hok hfresh hnn
    obtain ⟨a, items, cdf, ha, hv, hcr, hoid, hdb2⟩ := create_order_ok_elim hok
    subst hoid
    subst hdb2
    obtain ⟨hitems, hne, _, _⟩ := validate_cart_ok hv
    have hempty : db.orderSubtotalOf db.nextOrderId = 0 := by
      unfold DB.orderSubtotalOf DB.orderItemsOf
      have hz : db.orderItems.filter (fun it => it.orderId == db.nextOrderId) = [] := by
        rw [List.filter_eq_nil_iff]
        intro it hit
        simp [hfresh.2 it hit]
      rw [hz]
      rfl
    rcases cdf with ⟨cop, d, f⟩
    have hf : f = cartSubtotal items - d := couponResolve_final_eq hcr
    obtain ⟨o2, ho2, hsub, hd, htot⟩ := creationEffect_order hfresh.1 hempty hne hf
    have hs0 : 0 ≤ cartSubtotal items := by
      unfold cartSubtotal
      apply List.sum_nonneg
      intro x hx
      obtain ⟨ci, hci, hcix⟩ := List.mem_map.mp hx
      have hci2 : ci ∈ db.cartItems := by
        rw [hitems] at hci
        exact (List.mem_filter.mp hci).1
      have hn := hnn ci hci2
      rw [← hcix]
      exact mul_nonneg hn.1 hn.2
    have hf0 : 0 ≤ f := couponResolve_final_nonneg hcr hs0
    refine ⟨o2, ho2, ?_, ?_⟩
    · rw [htot, hsub, hd]
    · rw [htot]
      omega
  · exact fun db uid aid cc h => runCreate_allPriceEq db uid aid cc h
  · exact fun db itemId h => orderItemDelete_allPriceEq db itemId h
  · exact fun db it h => orderItemCreate_allPriceEq db it h
  · exact fun db oid s h => runUpdate_allPriceEq db oid s h
  · exact fun db oid uid h => runCancel_allPriceEq db oid uid h
  · intro db itemId o hall hmem hle
    have hp := orderItemDelete_allPriceEq db itemId hall o hmem
    unfold priceEq at hp
    omega

/-- Claim C1 counterexample: deleting the 20.00 line of a committed order that
carries a fixed 10.00 discount recomputes `total_price = 5.00 - 10.00 =
-5.00 < 0`, refuting unconditional `total_price ≥ 0` after updates. -/
theorem C1_total_price_counterexample :
    ((orderItemDelete fixedDiscountOrderDB 1).findOrder 1).map Order.totalPrice =
      some (-500) ∧
    ¬ (∀ o ∈ (orderItemDelete fixedDiscountOrderDB 1).orders, 0 ≤ o.totalPrice) := by
  constructor
  · decide
  · decide

/-- Witness for C1: a concrete no-coupon checkout of scenario B's cart ends
with `total_price = subtotal - discount_amount ≥ 0` on the created order. -/
theorem C1_total_price_equation_witness :
    OrderService.create_order scenarioBdb 1 1 none =
      .ok (1, runCreate scenarioBdb 1 1 none) ∧
    scenarioBdb.freshWF ∧ scenarioBdb.cartNonneg ∧
    (∃ o, (runCreate scenarioBdb 1 1 none).findOrder 1 = some o ∧
      o.totalPrice = o.subtotal - o.discountAmount ∧ 0 ≤ o.totalPrice) := by
  have h1 : OrderService.create_order scenarioBdb 1 1 none =
      .ok (1, runCreate scenarioBdb 1 1 none) := by decide
  have h2 : scenarioBdb.freshWF := by decide
  have h3 : scenarioBdb.cartNonneg := by decide
  exact ⟨h1, h2, h3, C1_total_price_equation.1 scenarioBdb 1 1 none 1 _ h1 h2 h3⟩

/-- Claim C2 (amended): for a coupon with nonnegative minimum and an order
amount at or above it, `calculate_discount` returns exactly the amended
closed-form discount — percentage value rounded half-even to cents, capped by
`maximum_discount_amount` only when the cap is set **and nonzero**, fixed
coupons use `discount_value`, clamped to the order amount — and the final
amount is the order amount minus the discount, hence never negative. -/
theorem C2_calculate_discount_amended :
    ∀ (c : Coupon) (a : Int), 0 ≤ c.minimumOrderAmount → c.minimumOrderAmount ≤ a →
      c.calculate_discount a = (discount_formula c a, a - discount_formula c a) ∧
      (c.calculate_discount a).1 ≤ a ∧
      (c.calculate_discount a).2 = a - (c.calculate_discount a).1 ∧
      0 ≤ (c.calculate_discount a).2 := by
  intro c a h1 h2
  obtain ⟨heq, hle, hnn⟩ := calculate_discount_formula c a h1 h2
  refine ⟨heq, ?_, calculate_discount_snd c a, ?_⟩
  · rw [heq]
    exact hle
  · rw [heq]
    exact hnn

/-- Claim C2 counterexample: a legal percentage coupon whose
`maximum_discount_amount` is set to `0.00` is *not* capped by the code
(Python truthiness skips a zero cap), while the claim's reading ("capped when
the cap is set") demands a zero discount: at order amount 50.00 the code
returns a 5.00 discount. -/
theorem C2_discount_cap_counterexample :
    capZeroCoupon.maximumDiscountAmount = some 0 ∧
    Coupon.calculate_discount capZeroCoupon 5000 = (500, 4500) ∧
    calculate_discount_claim capZeroCoupon 5000 = (0, 5000) ∧
    Coupon.calculate_discount capZeroCoupon 5000 ≠
      calculate_discount_claim capZeroCoupon 5000 := by
  refine ⟨rfl, by decide, by decide, by decide⟩

/-- Witness for C2: the `SAVE10` coupon (10 percent, minimum 20.00, no cap)
at 25.00 gives discount 2.50 and final amount 22.50. -/
theorem C2_calculate_discount_witness :
    (0 : Int) ≤ saveTen.minimumOrderAmount ∧
    saveTen.minimumOrderAmount ≤ 2500 ∧
    Coupon.calculate_discount saveTen 2500 = (250, 2250) ∧
    (Coupon.calculate_discount saveTen 2500 =
      (discount_formula saveTen 2500, 2500 - discount_formula saveTen 2500) ∧
    (Coupon.calculate_discount saveTen 2500).1 ≤ 2500 ∧
    (Coupon.calculate_discount saveTen 2500).2 =
      2500 - (Coupon.calculate_discount saveTen 2500).1 ∧
    0 ≤ (Coupon.calculate_discount saveTen 2500).2) := by
  refine ⟨by decide, by decide, by decide, ?_⟩
  exact C2_calculate_discount_amended saveTen 2500 (by decide) (by decide)

/-- Claim C3: the transition table is exactly pending→{preparing,cancelled},
preparing→{on_the_way,cancelled}, on_the_way→{delivered,cancelled},
delivered→{}, cancelled→{}; for an existing order, `update_order_status`
succeeds iff the target is a known status that is either in the table of the
current status or equal to it; an unknown status is rejected with the
invalid-status error (before the table is consulted); and a rejected update
leaves the database — status and history included — unchanged. -/
theorem C3_status_transitions :
    (OrderService.valid_transitions "pending" = ["preparing", "cancelled"] ∧
     OrderService.valid_transitions "preparing" = ["on_the_way", "cancelled"] ∧
     OrderService.valid_transitions "on_the_way" = ["delivered", "cancelled"] ∧
     OrderService.valid_transitions "delivered" = [] ∧
     OrderService.valid_transitions "cancelled" = []) ∧
    (∀ (db : DB) (oid : Nat) (s : String) (o : Order), db.findOrder oid = some o →
      ((∃ db2, OrderService.update_order_status db oid s = .ok db2) ↔
        (s ∈ valid_statuses ∧
          (s ∈ OrderService.valid_transitions o.status ∨ s = o.status)))) ∧
    (∀ (db : DB) (oid : Nat) (s : String) (o : Order), db.findOrder oid = some o →
      s ∉ valid_statuses →
      OrderService.update_order_status db oid s =
        .error ("Invalid status. Must be one of: " ++
          String.intercalate ", " valid_statuses)) ∧
    (∀ (db : DB) (oid : Nat) (s : String),
      (∀ db2, OrderService.update_order_status db oid s ≠ .ok db2) →
      runUpdate db oid s = db) := by
  refine ⟨⟨rfl, rfl, rfl, rfl, rfl⟩, ?_, ?_, ?_⟩
  · exact fun db oid s o h => update_order_status_ok_iff h
  · exact fun db oid s o h hs => update_order_status_unknown h hs
  · exact fun db oid s h => runUpdate_eq_of_not_ok h

/-- Witness for C3 (spec scenario F): moving a `delivered` order to
`preparing` is rejected — the success-iff instance is discharged, the update
evaluates to the transition error, and the state is unchanged. -/
theorem C3_status_transitions_witness :
    (statusDB "delivered").findOrder 1 =
      some { id := 1, userId := 7, subtotal := 1000, discountAmount := 0,
             totalPrice := 1000, couponCode := "", status := "delivered",
             addressId := 1 } ∧
    ((∃ db2, OrderService.update_order_status (statusDB "delivered") 1 "preparing" =
        .ok db2) ↔
      ("preparing" ∈ valid_statuses ∧
        ("preparing" ∈ OrderService.valid_transitions "delivered" ∨
          "preparing" = "delivered"))) ∧
    OrderService.update_order_status (statusDB "delivered") 1 "preparing" =
      .error "Cannot transition from 'delivered' to 'preparing'" ∧
    runUpdate (statusDB "delivered") 1 "preparing" = statusDB "delivered" := by
  have hfo : (statusDB "delivered").findOrder 1 =
      some { id := 1, userId := 7, subtotal := 1000, discountAmount := 0,
             totalPrice := 1000, couponCode := "", status := "delivered",
             addressId := 1 } := by decide
  have herr : OrderService.update_order_status (statusDB "delivered") 1 "preparing" =
      .error "Cannot transition from 'delivered' to 'preparing'" := by decide
  refine ⟨hfo, C3_status_transitions.2.1 _ 1 "preparing" _ hfo, herr, ?_⟩
  refine C3_status_transitions.2.2.2 _ 1 "preparing" ?_
  intro db2 hok
  rw [herr] at hok
  cases hok

/-- Claim C4 (code bug): cancelling an `on_the_way` order owned by the caller
— the exact situation the claim and the repo's own `test_cancel_order` expect
to succeed with inventory restoration — crashes instead: the restore loop
evaluates `item.product` but `OrderItem` defines no `product` attribute, so
Python raises `AttributeError`, the transaction rolls back, and the order is
left in `on_the_way` with no inventory change and no history row. -/
theorem C4_cancel_order_crashes :
    OrderService.cancel_order cancelDB 1 7 =
      .error "AttributeError: 'OrderItem' object has no attribute 'product'" ∧
    (cancelDB.findOrder 1).map Order.status = some "on_the_way" ∧
    cancelDB.orderItemsOf 1 ≠ [] ∧
    runCancel cancelDB 1 7 = cancelDB := by
  refine ⟨by decide, by decide, by decide, by decide⟩

/-- Claim C5: order creation appends exactly one history row carrying the
initial `pending` status; an accepted status update appends exactly one row
carrying the new status when it changes the status, and none when it is the
same-status no-op; a rejected update appends nothing; and the item-level
pricing recomputations never touch history — so history rows correspond
exactly to status mutations. -/
theorem C5_history_rows :
    (∀ (db : DB) (uid aid : Nat) (cc : Option String) (oid : Nat) (db2 : DB),
      OrderService.create_order db uid aid cc = .ok (oid, db2) →
      db2.history = db.history ++ [{ orderId := oid, status := "pending" }]) ∧
    (∀ (db : DB) (oid : Nat) (s : String) (db2 : DB) (o : Order),
      db.findOrder oid = some o →
      OrderService.update_order_status db oid s = .ok db2 →
      (s = o.status ∧ db2.history = db.history) ∨
      (s ≠ o.status ∧
        db2.history = db.history ++ [{ orderId := oid, status := s }] ∧
        db2.findOrder oid = some { o with status := s })) ∧
    (∀ (db : DB) (oid : Nat) (s : String),
      (∀ db2, OrderService.update_order_status db oid s ≠ .ok db2) →
      (runUpdate db oid s).history = db.history) ∧
    (∀ (db : DB) (itemId : Nat), (orderItemDelete db itemId).history = db.history) ∧
    (∀ (db : DB) (it : OrderItem), (orderItemCreate db it).history = db.history) := by
  refine ⟨?_, ?_, ?_, ?_, ?_⟩
  · intro db uid aid cc oid db2 hok
    obtain ⟨a, items, cdf, _, _, _, hoid, hdb2⟩ := create_order_ok_elim hok
    subst hoid
    subst hdb2
    exact creationEffect_history _ _ _ _ _ _ _ _ _
  · intro db oid s db2 o h hok
    obtain ⟨o1, hfo1, hdb2, _⟩ := update_order_status_ok_elim hok
    rw [h] at hfo1
    cases hfo1
    subst hdb2
    by_cases hss : s = o.status
    · refine Or.inl ⟨hss, ?_⟩
      rw [orderSaveStatus_history s h]
      simp [hss]
    · refine Or.inr ⟨hss, ?_, orderSaveStatus_findOrder s h⟩
      rw [orderSaveStatus_history s h]
      have hos : o.status ≠ s := fun hc => hss hc.symm
      simp [hos]
  · intro db oid s h
    rw [runUpdate_eq_of_not_ok h]
  · exact fun db itemId => orderItemDelete_history db itemId
  · exact fun db it => (orderItemCreate_frame db it).1

/-- Witness for C5: creating scenario B's order appends exactly the initial
`pending` history row, and the accepted `pending → preparing` update on a
fresh order appends exactly one `preparing` row. -/
theorem C5_history_rows_witness :
    OrderService.create_order scenarioBdb 1 1 none =
      .ok (1, runCreate scenarioBdb 1 1 none) ∧
    (runCreate scenarioBdb 1 1 none).history =
      scenarioBdb.history ++ [{ orderId := 1, status := "pending" }] ∧
    (statusDB "pending").findOrder 1 =
      some { id := 1, userId := 7, subtotal := 1000, discountAmount := 0,
             totalPrice := 1000, couponCode := "", status := "pending",
             addressId := 1 } ∧
    OrderService.update_order_status (statusDB "pending") 1 "preparing" =
      .ok (runUpdate (statusDB "pending") 1 "preparing") ∧
    (("preparing" = "pending" ∧
        (runUpdate (statusDB "pending") 1 "preparing").history =
          (statusDB "pending").history) ∨
      ("preparing" ≠ "pending" ∧
        (runUpdate (statusDB "pending") 1 "preparing").history =
          (statusDB "pending").history ++ [{ orderId := 1, status := "preparing" }] ∧
        (runUpdate (statusDB "pending") 1 "preparing").findOrder 1 =
          some { id := 1, userId := 7, subtotal := 1000, discountAmount := 0,
                 totalPrice := 1000, couponCode := "", status := "preparing",
                 addressId := 1 })) := by
  have hcr : OrderService.create_order scenarioBdb 1 1 none =
      .ok (1, runCreate scenarioBdb 1 1 none) := by decide
  have hfo : (statusDB "pending").findOrder 1 =
      some { id := 1, userId := 7, subtotal := 1000, discountAmount := 0,
             totalPrice := 1000, couponCode := "", status := "pending",
             addressId := 1 } := by decide
  have hup : OrderService.update_order_status (statusDB "pending") 1 "preparing" =
      .ok (runUpdate (statusDB "pending") 1 "preparing") := by decide
  exact ⟨hcr, C5_history_rows.1 scenarioBdb 1 1 none 1 _ hcr, hfo, hup,
    C5_history_rows.2.1 (statusDB "pending") 1 "preparing" _ _ hfo hup⟩

/-- Claim C6: when order creation succeeds with a validated coupon, exactly
one `CouponUsage` row is appended — snapshotting the pre-discount subtotal,
the discount, and the final amount — and the coupon's `current_usage_count`
increases by exactly one, all within the same atomic creation. -/
theorem C6_coupon_usage :
    ∀ (db : DB) (uid aid : Nat) (raw : String) (oid : Nat) (db2 : DB)
      (c : Coupon) (d f : Int),
      OrderService.create_order db uid aid (some raw) = .ok (oid, db2) →
      couponResolve db uid (some raw)
        (cartSubtotal (db.userCartItems uid)) = .ok (some c, d, f) →
      db2.couponUsages = db.couponUsages ++
        [{ couponCode := c.code, userId := uid, orderId := oid,
           orderAmount := cartSubtotal (db.userCartItems uid),
           discountAmount := d, finalAmount := f }] ∧
      db2.findCoupon c.code = (db.findCoupon c.code).map
        (fun x => { x with currentUsageCount := x.currentUsageCount + 1 }) := by
  intro db uid aid raw oid db2 c d f hok hcr
  obtain ⟨a, items, cdf, ha, hv, hcr2, hoid, hdb2⟩ := create_order_ok_elim hok
  obtain ⟨hitems, _, _, _⟩ := validate_cart_ok hv
  rw [hitems] at hcr2
  rw [hcr] at hcr2
  cases hcr2
  subst hoid
  subst hdb2
  rw [← hitems]
  obtain ⟨husage, hcoupons⟩ := creationEffect_couponUsages_some db uid db.nextOrderId
    a.id items c (cartSubtotal items) d f
  refine ⟨husage, ?_⟩
  unfold DB.findCoupon
  rw [hcoupons]
  rw [find?_code_map db.coupons c.code _ (fun x => by
    by_cases hx : x.code == c.code <;> simp [hx])]
  rcases hfc : db.coupons.find? (fun x => x.code == c.code) with _ | x <;> rw [hfc]
  · rfl
  · have hxc := List.find?_some hfc
    simp only at hxc
    simp [hxc]
    intro hc
    exact absurd (by simpa using hxc) hc

/-- Witness for C6 (spec scenario B): the 25.00 cart with `SAVE10` commits a
usage row `(order_amount, discount_amount, final_amount) =
(25.00, 2.50, 22.50)` and bumps `current_usage_count` from 0 to 1. -/
theorem C6_coupon_usage_witness :
    OrderService.create_order scenarioBdb 1 1 (some "SAVE10") =
      .ok (1, runCreate scenarioBdb 1 1 (some "SAVE10")) ∧
    couponResolve scenarioBdb 1 (some "SAVE10")
      (cartSubtotal (scenarioBdb.userCartItems 1)) = .ok (some saveTen, 250, 2250) ∧
    (runCreate scenarioBdb 1 1 (some "SAVE10")).couponUsages =
      scenarioBdb.couponUsages ++
        [{ couponCode := "SAVE10", userId := 1, orderId := 1,
           orderAmount := cartSubtotal (scenarioBdb.userCartItems 1),
           discountAmount := 250, finalAmount := 2250 }] ∧
    (runCreate scenarioBdb 1 1 (some "SAVE10")).findCoupon "SAVE10" =
      (scenarioBdb.findCoupon "SAVE10").map
        (fun x => { x with currentUsageCount := x.currentUsageCount + 1 }) ∧
    (scenarioBdb.findCoupon "SAVE10").map (fun x => x.currentUsageCount) = some 0 ∧
    ((runCreate scenarioBdb 1 1 (some "SAVE10")).findCoupon "SAVE10").map
      (fun x => x.currentUsageCount) = some 1 := by
  have hok : OrderService.create_order scenarioBdb 1 1 (some "SAVE10") =
      .ok (1, runCreate scenarioBdb 1 1 (some "SAVE10")) := by decide
  have hcr : couponResolve scenarioBdb 1 (some "SAVE10")
      (cartSubtotal (scenarioBdb.userCartItems 1)) =
      .ok (some saveTen, 250, 2250) := by decide
  have hmain := C6_coupon_usage scenarioBdb 1 1 "SAVE10" 1 _ saveTen 250 2250 hok hcr
  exact ⟨hok, hcr, hmain.1, hmain.2, by decide, by decide⟩

/-- Claim C7: if a coupon code is supplied and any coupon check fails —
unknown code, user not allowed, or subtotal below the minimum — order
creation is rejected entirely (when address and cart checks pass, with
exactly the coupon error) and the database is unchanged: no order, item,
usage, inventory, or cart write survives. -/
theorem C7_coupon_failure_aborts :
    (∀ (db : DB) (uid aid : Nat) (raw e : String),
      couponResolve db uid (some raw)
        (cartSubtotal (db.userCartItems uid)) = .error e →
      (∀ r, OrderService.create_order db uid aid (some raw) ≠ .ok r) ∧
      runCreate db uid aid (some raw) = db) ∧
    (∀ (db : DB) (uid aid : Nat) (raw e : String) (a : Address)
      (items : List CartItem),
      db.addresses.find? (fun x => x.id == aid && x.userId == uid) = some a →
      CartService.validate_cart_for_checkout db uid = .ok items →
      couponResolve db uid (some raw) (cartSubtotal items) = .error e →
      OrderService.create_order db uid aid (some raw) = .error e) ∧
    (∀ (db : DB) (uid : Nat) (code : String) (s : Int) (e : String),
      OrderService.apply_coupon db uid code s = .error e →
      (db.findCoupon code = none ∧ e = "Invalid coupon code") ∨
      (∃ c, db.findCoupon code = some c ∧ (c.can_user_use db uid).1 = false ∧
        e = (c.can_user_use db uid).2) ∨
      (∃ c, db.findCoupon code = some c ∧ (c.can_user_use db uid).1 = true ∧
        s < c.minimumOrderAmount ∧
        e = "Minimum order amount of $" ++ toString c.minimumOrderAmount ++
          " required for this coupon")) := by
  refine ⟨?_, ?_, ?_⟩
  · intro db uid aid raw e hcr
    have hnot := @create_order_not_ok_of_couponError db uid aid raw e hcr
    exact ⟨hnot, runCreate_eq_of_not_ok hnot⟩
  · exact fun db uid aid raw e a items ha hv hcr => create_order_error_eq ha hv hcr
  · exact fun db uid code s e h => apply_coupon_error_elim h

/-- Witness for C7 (spec scenario C): a 15.00 cart with a coupon requiring a
20.00 minimum — creation is rejected with the minimum-order message and the
state is unchanged. -/
theorem C7_coupon_failure_witness :
    couponResolve scenarioCdb 1 (some "SAVE10")
      (cartSubtotal (scenarioCdb.userCartItems 1)) =
      .error "Minimum order amount of $2000 required for this coupon" ∧
    (∀ r, OrderService.create_order scenarioCdb 1 1 (some "SAVE10") ≠ .ok r) ∧
    runCreate scenarioCdb 1 1 (some "SAVE10") = scenarioCdb ∧
    OrderService.create_order scenarioCdb 1 1 (some "SAVE10") =
      .error "Minimum order amount of $2000 required for this coupon" := by
  have hcr : couponResolve scenarioCdb 1 (some "SAVE10")
      (cartSubtotal (scenarioCdb.userCartItems 1)) =
      .error "Minimum order amount of $2000 required for this coupon" := by decide
  have hmain := C7_coupon_failure_aborts.1 scenarioCdb 1 1 "SAVE10" _ hcr
  exact ⟨hcr, hmain.1, hmain.2, by decide⟩

/-- Claim C8: a cart line whose product has no inventory record contributes no
stock issue (unlimited stock); a tracked line short on stock contributes the
message `"<name> (only <quantity> available)"`; and when the cart has such a
shortfall (and no unavailable products), order creation fails with the
insufficient-stock error naming those counts, leaving the database — the
inventory included — unchanged. -/
theorem C8_insufficient_stock :
    (∀ (db : DB) (item : CartItem), db.findInventory item.productId = none →
      stockIssueOf db item = none) ∧
    (∀ (db : DB) (item : CartItem) (p : Product) (inv : ProductInventory),
      db.findProduct item.productId = some p →
      db.findInventory item.productId = some inv →
      inv.quantity < item.quantity →
      stockIssueOf db item =
        some (p.name ++ " (only " ++ toString inv.quantity ++ " available)")) ∧
    (∀ (db : DB) (uid aid : Nat) (cc : Option String) (a : Address),
      db.addresses.find? (fun x => x.id == aid && x.userId == uid) = some a →
      (db.userCartItems uid).filterMap (unavailableNameOf db) = [] →
      (db.userCartItems uid).filterMap (stockIssueOf db) ≠ [] →
      OrderService.create_order db uid aid cc =
        .error ("Insufficient stock: " ++
          String.intercalate ", " ((db.userCartItems uid).filterMap (stockIssueOf db))) ∧
      runCreate db uid aid cc = db) := by
  refine ⟨?_, ?_, ?_⟩
  · intro db item hinv
    unfold stockIssueOf
    rcases db.findProduct item.productId with _ | p
    · rfl
    · rw [hinv]
  · intro db item p inv hp hinv hlt
    unfold stockIssueOf
    rw [hp, hinv]
    dsimp only
    rw [if_pos hlt]
  · intro db uid aid cc a ha hA hS
    have herr := @create_order_error_validate db uid aid cc _ a ha (validate_cart_stock_error hA hS)
    refine ⟨herr, runCreate_eq_of_not_ok ?_⟩
    intro r hok
    rw [herr] at hok
    cases hok

/-- Witness for C8 (spec scenario D): the tracked `Burger` has 3 units, the
cart requests 5 — the stock issue names "only 3 available", creation fails
with exactly that message, and nothing (inventory included) changes. -/
theorem C8_insufficient_stock_witness :
    scenarioDdb.findProduct 20 =
      some { id := 20, name := "Burger", price := 800, isAvailable := true } ∧
    scenarioDdb.findInventory 20 =
      some { productId := 20, quantity := 3, lowStockThreshold := 10,
             autoDisableOnZero := true } ∧
    stockIssueOf scenarioDdb
        { userId := 1, productId := 20, quantity := 5, price := 800 } =
      some "Burger (only 3 available)" ∧
    OrderService.create_order scenarioDdb 1 1 none =
      .error ("Insufficient stock: " ++
        String.intercalate ", "
          ((scenarioDdb.userCartItems 1).filterMap (stockIssueOf scenarioDdb))) ∧
    OrderService.create_order scenarioDdb 1 1 none =
      .error "Insufficient stock: Burger (only 3 available)" ∧
    runCreate scenarioDdb 1 1 none = scenarioDdb := by
  have hp : scenarioDdb.findProduct 20 =
      some { id := 20, name := "Burger", price := 800, isAvailable := true } := by decide
  have hi : scenarioDdb.findInventory 20 =
      some { productId := 20, quantity := 3, lowStockThreshold := 10,
             autoDisableOnZero := true } := by decide
  have ha : scenarioDdb.addresses.find?
      (fun x => x.id == 1 && x.userId == 1) = some { id := 1, userId := 1 } := by decide
  have hA : (scenarioDdb.userCartItems 1).filterMap (unavailableNameOf scenarioDdb) =
      [] := by decide
  have hS : (scenarioDdb.userCartItems 1).filterMap (stockIssueOf scenarioDdb) ≠
      [] := by decide
  have hmain := C8_insufficient_stock.2.2 scenarioDdb 1 1 none _ ha hA hS
  refine ⟨hp, hi,
    C8_insufficient_stock.2.1 scenarioDdb
      { userId := 1, productId := 20, quantity := 5, price := 800 } _ _ hp hi (by decide),
    hmain.1, by decide, hmain.2⟩

/-- Claim C9 (code bug): neither order creation nor cancellation ever appends
an `InventoryTransaction` row — the transaction log is untouched by both paths
— so after a checkout that decrements tracked stock from 5 to 3 the ledger is
still empty and `initial + Σ quantity_change = 5 + 0 ≠ 3`: the running-sum
invariant the claim states does not hold on the code. -/
theorem C9_no_inventory_ledger :
    (∀ (db : DB) (uid aid : Nat) (cc : Option String),
      (runCreate db uid aid cc).invTransactions = db.invTransactions) ∧
    (∀ (db : DB) (oid uid : Nat),
      (runCancel db oid uid).invTransactions = db.invTransactions) ∧
    ledgerDB.findInventory 10 =
      some { productId := 10, quantity := 5, lowStockThreshold := 2,
             autoDisableOnZero := true } ∧
    ledgerDB.invTransactions = [] ∧
    (∃ db2, OrderService.create_order ledgerDB 1 1 none = .ok (1, db2)) ∧
    (runCreate ledgerDB 1 1 none).findInventory 10 =
      some { productId := 10, quantity := 3, lowStockThreshold := 2,
             autoDisableOnZero := true } ∧
    (runCreate ledgerDB 1 1 none).invTransactions = [] ∧
    (5 : Int) + ledgerSum [] ≠ 3 := by
  refine ⟨?_, ?_, by decide, rfl, ⟨runCreate ledgerDB 1 1 none, by decide⟩,
    by decide, by decide, by decide⟩
  · exact fun db uid aid cc => runCreate_invTransactions db uid aid cc
  · exact fun db oid uid => runCancel_invTransactions db oid uid

/-- Claim C10: for an order in any stored status — the terminal `delivered`
and `cancelled` included — updating to that same status succeeds as a no-op:
the call returns `ok`, the history gains no row, and the order is returned
unchanged. -/
theorem C10_noop_transition :
    ∀ (db : DB) (oid : Nat) (o : Order),
      db.findOrder oid = some o → o.status ∈ valid_statuses →
      OrderService.update_order_status db oid o.status =
        .ok (orderSaveStatus db oid o.status) ∧
      (orderSaveStatus db oid o.status).history = db.history ∧
      (orderSaveStatus db oid o.status).findOrder oid = some o :=
  fun _ _ _ h hs => update_order_status_noop h hs

/-- Witness for C10: the same-status update on a terminal `delivered` order
succeeds, appends no history row, and returns the order unchanged. -/
theorem C10_noop_transition_witness :
    (statusDB "delivered").findOrder 1 =
      some { id := 1, userId := 7, subtotal := 1000, discountAmount := 0,
             totalPrice := 1000, couponCode := "", status := "delivered",
             addressId := 1 } ∧
    "delivered" ∈ valid_statuses ∧
    OrderService.update_order_status (statusDB "delivered") 1 "delivered" =
      .ok (orderSaveStatus (statusDB "delivered") 1 "delivered") ∧
    (orderSaveStatus (statusDB "delivered") 1 "delivered").history =
      (statusDB "delivered").history ∧
    (orderSaveStatus (statusDB "delivered") 1 "delivered").findOrder 1 =
      some { id := 1, userId := 7, subtotal := 1000, discountAmount := 0,
             totalPrice := 1000, couponCode := "", status := "delivered",
             addressId := 1 } := by
  have hfo : (statusDB "delivered").findOrder 1 =
      some { id := 1, userId := 7, subtotal := 1000, discountAmount := 0,
             totalPrice := 1000, couponCode := "", status := "delivered",
             addressId := 1 } := by decide
  have hmem : "delivered" ∈ valid_statuses := by decide
  have hmain := C10_noop_transition (statusDB "delivered") 1 _ hfo hmem
  exact ⟨hfo, hmem, hmain.1, hmain.2.1, hmain.2.2⟩
